import Mathlib

/-!
Verification development for the `sec-data-parser` repository.

The repository contains two generations of the parsing pipeline:
  * the root crate (`src/main.rs`, `src/schema.rs`, ...), an earlier
    self-contained prototype, embedded here under the `Legacy` namespace;
  * the `sec-data-parser` library crate (`parse.rs`, `tokens.rs`,
    `document_tree.rs`, `schema.rs`, `document_body.rs`), the version used by
    the `nc-cli` binary, embedded at top level.

Rust strings are modelled as lists of characters (`RStr`), Rust `panic!` /
`assert!` / `unwrap` / `unimplemented!` aborts are modelled as the
`PError.panicked` error of an `Except` computation, and the `BufRead` line
source of the lexer is modelled as the list of lines which successive
`read_line` calls would produce (each line keeps its trailing newline).

The tag vocabulary module (`tag.rs`) is not part of the sources; its two
enumerations are reconstructed from their uses in `schema.rs` /
`document_tree.rs`, and the name tables of `ContainerTag::parse` /
`ValueTag::parse` are modelled from the spec (two closed vocabularies of
hyphenated upper-case names, unknown names being hard errors).
-/

/-- Rust `String` / `&str` values, modelled as lists of characters. -/
abbrev RStr := List Char

/-- Conversion from a Lean string literal to the `RStr` model. -/
def strOf (s : String) : RStr := s.data

/-- Container tags: the entities that nest other nodes (`tag.rs`, variants as
used by both schema generations). -/
inductive ContainerTag where
  | Submission | Filer | CompanyData | FilingValues | BusinessAddress
  | MailAddress | FormerCompany | OwnerData | FormerName | Document
  | SeriesAndClassesContractsData | ReportingOwner | Issuer | SubjectCompany
  | FiledBy | Depositor | Securitizer | FiledFor | ClassContract | Series
  | AcquiringData | TargetData | NewSeries | NewClassesContracts
  | ExistingSeriesAndClassesContracts | MergerSeriesAndClassesContracts
  | NewSeriesAndClassesContracts | Merger | Paper | ConfirmingCopy
  deriving DecidableEq, Repr

/-- Value tags: the entities whose content is a single scalar (`tag.rs`,
variants as used by both schema generations). -/
inductive ValueTag where
  | AccessionNumber | Type | PublicDocumentCount | Items | FilingDate
  | DateOfFilingDateChange | EffectivenessDate | Period | GroupMembers
  | Reference462B | IsFilerANewRegistrant | IsFilerAWellKnownSeasonedIssuer
  | FiledPursuantToGeneralInstructionA2 | IsFund24F2Eligible | ActionDate
  | ReceivedDate | MaIIndividual | AbsRule | PeriodStart | NoQuarterlyActivity
  | NoAnnualActivity | AbsAssetClass | DepositorCik | SponsorCik | Category
  | RegisteredEntity | References429 | SecuritizerCik | IssuingEntityCik
  | IssuingEntityName | Paper | ConfirmingCopy | SecuritizerFileNumber
  | DepositorFileNumber | Timestamp | PrivateToPublic | PublicReferenceAcc
  | PublicRelDate | Deletion | Correction | Sros | PreviousAccessionNumber
  | FormType | Act | FileNumber | FilmNumber | ConformedName | Cik | IrsNumber
  | StateOfInforporation | FiscalYearEnd | AssignedSic | Relationship
  | Street1 | Street2 | City | State | Zip | Phone | FormerConformedName
  | DateChanged | Sequence | Filename | Description | Flawed
  | ClassContractId | ClassContractName | ClassContractTickerSymbol
  | OwnerCik | SeriesId | SeriesName
  deriving DecidableEq, Repr

/-- Errors of the pipeline: the four structured variants of `error.rs`, plus
`panicked` for Rust aborts (`panic!`, failed `assert!`, `unwrap` on
`None`/`Err`, `unimplemented!`) and `outOfFuel`, an artifact of the fuelled
encoding of recursion that sufficient fuel never produces. -/
inductive PError where
  | InvalidValueTag (tag : RStr)
  | InvalidContainerTag (tag : RStr)
  | UnexpectedEndOfInput (tag : ContainerTag)
  | UnexpectedCloseTag (tag : ContainerTag)
  | panicked (msg : String)
  | outOfFuel
  deriving DecidableEq, Repr

/-- Shorthand for `ValueTag`, used where a constructor of another type is
also called `ValueTag`. -/
abbrev VTag := ValueTag

/-- Modelled from the spec: the closed container-tag vocabulary of the missing
`tag.rs`, `ContainerTag::parse` — each recognized hyphenated upper-case name
maps to its variant, any other name is the hard error `InvalidContainerTag`.
(`PAPER` and `CONFIRMING-COPY` are listed in the value vocabulary below,
following the newer schema generation.) -/
def ContainerTag.parse (name : RStr) : Except PError ContainerTag :=
  if name = strOf "SUBMISSION" then .ok .Submission
  else if name = strOf "FILER" then .ok .Filer
  else if name = strOf "COMPANY-DATA" then .ok .CompanyData
  else if name = strOf "FILING-VALUES" then .ok .FilingValues
  else if name = strOf "BUSINESS-ADDRESS" then .ok .BusinessAddress
  else if name = strOf "MAIL-ADDRESS" then .ok .MailAddress
  else if name = strOf "FORMER-COMPANY" then .ok .FormerCompany
  else if name = strOf "OWNER-DATA" then .ok .OwnerData
  else if name = strOf "FORMER-NAME" then .ok .FormerName
  else if name = strOf "DOCUMENT" then .ok .Document
  else if name = strOf "SERIES-AND-CLASSES-CONTRACTS-DATA" then
    .ok .SeriesAndClassesContractsData
  else if name = strOf "REPORTING-OWNER" then .ok .ReportingOwner
  else if name = strOf "ISSUER" then .ok .Issuer
  else if name = strOf "SUBJECT-COMPANY" then .ok .SubjectCompany
  else if name = strOf "FILED-BY" then .ok .FiledBy
  else if name = strOf "DEPOSITOR" then .ok .Depositor
  else if name = strOf "SECURITIZER" then .ok .Securitizer
  else if name = strOf "FILED-FOR" then .ok .FiledFor
  else if name = strOf "CLASS-CONTRACT" then .ok .ClassContract
  else if name = strOf "SERIES" then .ok .Series
  else if name = strOf "ACQUIRING-DATA" then .ok .AcquiringData
  else if name = strOf "TARGET-DATA" then .ok .TargetData
  else if name = strOf "NEW-SERIES" then .ok .NewSeries
  else if name = strOf "NEW-CLASSES-CONTRACTS" then .ok .NewClassesContracts
  else if name = strOf "EXISTING-SERIES-AND-CLASSES-CONTRACTS" then
    .ok .ExistingSeriesAndClassesContracts
  else if name = strOf "MERGER-SERIES-AND-CLASSES-CONTRACTS" then
    .ok .MergerSeriesAndClassesContracts
  else if name = strOf "NEW-SERIES-AND-CLASSES-CONTRACTS" then
    .ok .NewSeriesAndClassesContracts
  else if name = strOf "MERGER" then .ok .Merger
  else .error (.InvalidContainerTag name)

/-- Modelled from the spec: the closed value-tag vocabulary of the missing
`tag.rs`, `ValueTag::parse` — unknown names are the hard error
`InvalidValueTag`. -/
def ValueTag.parse (name : RStr) : Except PError ValueTag :=
  if name = strOf "ACCESSION-NUMBER" then .ok .AccessionNumber
  else if name = strOf "TYPE" then .ok .Type
  else if name = strOf "PUBLIC-DOCUMENT-COUNT" then .ok .PublicDocumentCount
  else if name = strOf "ITEMS" then .ok .Items
  else if name = strOf "FILING-DATE" then .ok .FilingDate
  else if name = strOf "DATE-OF-FILING-DATE-CHANGE" then .ok .DateOfFilingDateChange
  else if name = strOf "EFFECTIVENESS-DATE" then .ok .EffectivenessDate
  else if name = strOf "PERIOD" then .ok .Period
  else if name = strOf "GROUP-MEMBERS" then .ok .GroupMembers
  else if name = strOf "REFERENCE-462B" then .ok .Reference462B
  else if name = strOf "IS-FILER-A-NEW-REGISTRANT" then .ok .IsFilerANewRegistrant
  else if name = strOf "IS-FILER-A-WELL-KNOWN-SEASONED-ISSUER" then
    .ok .IsFilerAWellKnownSeasonedIssuer
  else if name = strOf "FILED-PURSUANT-TO-GENERAL-INSTRUCTION-A2" then
    .ok .FiledPursuantToGeneralInstructionA2
  else if name = strOf "IS-FUND-24F2-ELIGIBLE" then .ok .IsFund24F2Eligible
  else if name = strOf "ACTION-DATE" then .ok .ActionDate
  else if name = strOf "RECEIVED-DATE" then .ok .ReceivedDate
  else if name = strOf "MA-I-INDIVIDUAL" then .ok .MaIIndividual
  else if name = strOf "ABS-RULE" then .ok .AbsRule
  else if name = strOf "PERIOD-START" then .ok .PeriodStart
  else if name = strOf "NO-QUARTERLY-ACTIVITY" then .ok .NoQuarterlyActivity
  else if name = strOf "NO-ANNUAL-ACTIVITY" then .ok .NoAnnualActivity
  else if name = strOf "ABS-ASSET-CLASS" then .ok .AbsAssetClass
  else if name = strOf "DEPOSITOR-CIK" then .ok .DepositorCik
  else if name = strOf "SPONSOR-CIK" then .ok .SponsorCik
  else if name = strOf "CATEGORY" then .ok .Category
  else if name = strOf "REGISTERED-ENTITY" then .ok .RegisteredEntity
  else if name = strOf "REFERENCES-429" then .ok .References429
  else if name = strOf "SECURITIZER-CIK" then .ok .SecuritizerCik
  else if name = strOf "ISSUING-ENTITY-CIK" then .ok .IssuingEntityCik
  else if name = strOf "ISSUING-ENTITY-NAME" then .ok .IssuingEntityName
  else if name = strOf "PAPER" then .ok .Paper
  else if name = strOf "CONFIRMING-COPY" then .ok .ConfirmingCopy
  else if name = strOf "SECURITIZER-FILE-NUMBER" then .ok .SecuritizerFileNumber
  else if name = strOf "DEPOSITOR-FILE-NUMBER" then .ok .DepositorFileNumber
  else if name = strOf "TIMESTAMP" then .ok .Timestamp
  else if name = strOf "PRIVATE-TO-PUBLIC" then .ok .PrivateToPublic
  else if name = strOf "PUBLIC-REFERENCE-ACC" then .ok .PublicReferenceAcc
  else if name = strOf "PUBLIC-REL-DATE" then .ok .PublicRelDate
  else if name = strOf "DELETION" then .ok .Deletion
  else if name = strOf "CORRECTION" then .ok .Correction
  else if name = strOf "SROS" then .ok .Sros
  else if name = strOf "PREVIOUS-ACCESSION-NUMBER" then .ok .PreviousAccessionNumber
  else if name = strOf "FORM-TYPE" then .ok .FormType
  else if name = strOf "ACT" then .ok .Act
  else if name = strOf "FILE-NUMBER" then .ok .FileNumber
  else if name = strOf "FILM-NUMBER" then .ok .FilmNumber
  else if name = strOf "CONFORMED-NAME" then .ok .ConformedName
  else if name = strOf "CIK" then .ok .Cik
  else if name = strOf "IRS-NUMBER" then .ok .IrsNumber
  else if name = strOf "STATE-OF-INCORPORATION" then .ok .StateOfInforporation
  else if name = strOf "FISCAL-YEAR-END" then .ok .FiscalYearEnd
  else if name = strOf "ASSIGNED-SIC" then .ok .AssignedSic
  else if name = strOf "RELATIONSHIP" then .ok .Relationship
  else if name = strOf "STREET1" then .ok .Street1
  else if name = strOf "STREET2" then .ok .Street2
  else if name = strOf "CITY" then .ok .City
  else if name = strOf "STATE" then .ok .State
  else if name = strOf "ZIP" then .ok .Zip
  else if name = strOf "PHONE" then .ok .Phone
  else if name = strOf "FORMER-CONFORMED-NAME" then .ok .FormerConformedName
  else if name = strOf "DATE-CHANGED" then .ok .DateChanged
  else if name = strOf "SEQUENCE" then .ok .Sequence
  else if name = strOf "FILENAME" then .ok .Filename
  else if name = strOf "DESCRIPTION" then .ok .Description
  else if name = strOf "FLAWED" then .ok .Flawed
  else if name = strOf "CLASS-CONTRACT-ID" then .ok .ClassContractId
  else if name = strOf "CLASS-CONTRACT-NAME" then .ok .ClassContractName
  else if name = strOf "CLASS-CONTRACT-TICKER-SYMBOL" then
    .ok .ClassContractTickerSymbol
  else if name = strOf "OWNER-CIK" then .ok .OwnerCik
  else if name = strOf "SERIES-ID" then .ok .SeriesId
  else if name = strOf "SERIES-NAME" then .ok .SeriesName
  else .error (.InvalidValueTag name)

namespace Tree

/-- Tokens as consumed by the tree builder (`document_tree.rs`): value tokens
carry no payload and are extended by `RawText` continuation tokens. -/
inductive Token where
  | ContainerTagOpen (tag : ContainerTag)
  | ContainerTagClose (tag : ContainerTag)
  | ValueTag (tag : VTag)
  | RawText (content : RStr)
  | TextBlock (content : RStr)
  deriving DecidableEq, Repr

/-- Generic tree nodes (`document_tree.rs`, `DocumentTree`). -/
inductive DocumentTree where
  | ContainerNode (tag : ContainerTag) (parts : List DocumentTree)
  | ValueNode (tag : VTag) (value : RStr)
  | TextNode (content : RStr)
  | Empty
  deriving Repr

/-- Consume the leading run of `RawText` continuation tokens, concatenating
their content onto `acc` (the inner `while let Some(Token::RawText(c))` loop
of `parse_doc`). -/
def takeRawTexts : List Token → RStr → RStr × List Token
  | .RawText c :: rest, acc => takeRawTexts rest (acc ++ c)
  | rest, acc => (acc, rest)

mutual

/-- Fuelled embedding of `parse_doc` (`document_tree.rs`): pops one token and
builds one `DocumentTree`, returning it with the unconsumed remainder of the
queue. Fuel only bounds recursion depth; `parse_doc` below supplies enough. -/
def parse_docF : Nat → List Token → Except PError (DocumentTree × List Token)
  | 0, _ => .error .outOfFuel
  | _ + 1, [] => .ok (.Empty, [])
  | n + 1, tok :: rest =>
    match tok with
    | .ContainerTagOpen tag => parse_partsF n tag [] rest
    | .ContainerTagClose tag => .error (.UnexpectedCloseTag tag)
    | .ValueTag tag =>
      let (value, rest') := takeRawTexts rest []
      .ok (.ValueNode tag value, rest')
    | .TextBlock text => .ok (.TextNode text, rest)
    | .RawText _ => .error (.panicked "Unexpected token")

/-- Fuelled embedding of the child-collection loop of `parse_doc`: `parts`
holds the children parsed so far, in reverse. The matching close tag is
consumed and ends the loop; a close tag for a different container is the
`panic!("Expected {:?}, got {:?}")` of the source; end of input while the
close tag is pending is `UnexpectedEndOfInput`. -/
def parse_partsF : Nat → ContainerTag → List DocumentTree → List Token →
    Except PError (DocumentTree × List Token)
  | 0, _, _, _ => .error .outOfFuel
  | _ + 1, tag, _, [] => .error (.UnexpectedEndOfInput tag)
  | n + 1, tag, parts, next :: ts =>
    if next = .ContainerTagClose tag then
      .ok (.ContainerNode tag parts.reverse, ts)
    else
      match next with
      | .ContainerTagClose _ =>
        .error (.panicked "Expected close of the open container, got another close tag")
      | _ => do
        let (child, ts') ← parse_docF n (next :: ts)
        parse_partsF n tag (child :: parts) ts'

end

/-- The tree builder with enough fuel for its input; each recursive call of
`parse_docF` / `parse_partsF` either consumes a token first or is about to,
so `2 * length + 1` units can never run out. -/
def parse_doc (tokens : List Token) : Except PError (DocumentTree × List Token) :=
  parse_docF (2 * tokens.length + 1) tokens

end Tree

namespace Tree

/-- Modelled from the spec: the round-trip driver — repeated application of
`parse_doc` to the front of the token queue until it is exhausted, collecting
the trees in order (fuelled; one unit per tree suffices). -/
def parse_allF : Nat → List Token → Except PError (List DocumentTree)
  | 0, _ => .error .outOfFuel
  | _ + 1, [] => .ok []
  | n + 1, tok :: ts => do
    let (t, ts') ← parse_doc (tok :: ts)
    let f ← parse_allF n ts'
    .ok (t :: f)

/-- The round-trip driver with enough fuel for its input. -/
def parse_all (ts : List Token) : Except PError (List DocumentTree) :=
  parse_allF (ts.length + 1) ts

mutual

/-- Modelled from the spec: re-flattening a generic tree back into its token
sequence — a container becomes its open tag, the flattening of its children
and its close tag; a value node becomes its value token (with one `RawText`
continuation token when its accumulated value is nonempty); a text node
becomes its text-block token; `Empty` flattens to nothing. -/
def flattenTree : DocumentTree → List Token
  | .ContainerNode tag parts =>
    .ContainerTagOpen tag :: (flattenForest parts ++ [.ContainerTagClose tag])
  | .ValueNode tag v => if v = [] then [.ValueTag tag] else [.ValueTag tag, .RawText v]
  | .TextNode s => [.TextBlock s]
  | .Empty => []

/-- Flattening of a list of sibling trees, in order. -/
def flattenForest : List DocumentTree → List Token
  | [] => []
  | t :: f => flattenTree t ++ flattenForest f

end

mutual

/-- Trees representable by container-open, value and container-close tokens
alone: no text nodes, no `Empty` nodes, and value nodes carry the empty
value (a nonempty value would require a `RawText` continuation token). -/
def pureTree : DocumentTree → Bool
  | .ContainerNode _ parts => pureForest parts
  | .ValueNode _ v => v.isEmpty
  | .TextNode _ => false
  | .Empty => false

/-- All trees of the forest are pure. -/
def pureForest : List DocumentTree → Bool
  | [] => true
  | t :: f => pureTree t && pureForest f

end

end Tree

/-- C10: the tree builder applied to an empty token queue returns the `Empty`
node with the queue unchanged rather than an error (at any fuel), and
`UnexpectedEndOfInput` is what exhaustion produces only in the child-collection
loop, i.e. while some container's close tag is still pending. -/
theorem parse_doc_empty_input_ok :
    Tree.parse_doc ([] : List Tree.Token) = .ok (.Empty, []) ∧
    (∀ n, Tree.parse_docF (n + 1) [] = .ok (.Empty, [])) ∧
    (∀ n tag parts, Tree.parse_partsF (n + 1) tag parts [] =
      .error (.UnexpectedEndOfInput tag)) :=
  ⟨rfl, fun _ => rfl, fun _ _ _ => rfl⟩

/-- C3: while collecting the children of an open container, a close token for
a different container tag is a hard structural error (the source's
mismatched-nesting `panic!`), never silently accepted; in particular
`<FILER>...<COMPANY-DATA>...</FILER>` fails. -/
theorem parse_doc_mismatched_close_is_error :
    (∀ n tag parts c ts, c ≠ tag →
      Tree.parse_partsF (n + 1) tag parts (.ContainerTagClose c :: ts) =
        .error (.panicked
          "Expected close of the open container, got another close tag")) ∧
    Tree.parse_doc [.ContainerTagOpen .Filer, .ContainerTagOpen .CompanyData,
        .ContainerTagClose .Filer] =
      .error (.panicked
        "Expected close of the open container, got another close tag") := by
  constructor
  · intro n tag parts c ts hne
    simp [Tree.parse_partsF, Tree.Token.ContainerTagClose.injEq, hne]
  · rfl

/-- Witness for C3 at concrete tags: closing `FILER` while `COMPANY-DATA` is
the open container is rejected. -/
theorem parse_doc_mismatched_close_is_error_witness :
    Tree.parse_partsF 5 .CompanyData [] [.ContainerTagClose .Filer] =
      .error (.panicked
        "Expected close of the open container, got another close tag") :=
  parse_doc_mismatched_close_is_error.1 4 .CompanyData [] .Filer [] (by decide)

namespace Tree

/-- Whether the token queue begins with a `RawText` continuation token. -/
def rawHead : List Token → Bool
  | .RawText _ :: _ => true
  | _ => false

theorem takeRawTexts_not_raw (ts : List Token) (acc : RStr)
    (h : rawHead ts = false) : takeRawTexts ts acc = (acc, ts) := by
  match ts with
  | [] => rfl
  | .RawText _ :: _ => simp [rawHead] at h
  | .ContainerTagOpen _ :: _ => rfl
  | .ContainerTagClose _ :: _ => rfl
  | .ValueTag _ :: _ => rfl
  | .TextBlock _ :: _ => rfl

theorem pure_flatten_head (t : DocumentTree) (h : pureTree t = true) :
    ∃ tok tl, flattenTree t = tok :: tl ∧ (∀ c, tok ≠ Token.ContainerTagClose c) ∧
      (∀ c, tok ≠ Token.RawText c) := by
  match t with
  | .ContainerNode tag parts =>
    exact ⟨.ContainerTagOpen tag, flattenForest parts ++ [.ContainerTagClose tag],
      by simp [flattenTree], by simp, by simp⟩
  | .ValueNode tag v =>
    have hv : v = [] := by simpa [pureTree, List.isEmpty_iff] using h
    exact ⟨.ValueTag tag, [], by simp [flattenTree, hv], by simp, by simp⟩
  | .TextNode s => simp [pureTree] at h
  | .Empty => simp [pureTree] at h

theorem rawHead_flatten_append (t : DocumentTree) (h : pureTree t = true)
    (rest : List Token) : rawHead (flattenTree t ++ rest) = false := by
  obtain ⟨tok, tl, heq, -, hraw⟩ := pure_flatten_head t h
  rw [heq]
  cases tok <;> simp [rawHead]
  exact absurd rfl (hraw _)

theorem rawHead_flattenForest_append (f : List DocumentTree)
    (h : pureForest f = true) (rest : List Token) (hr : rawHead rest = false) :
    rawHead (flattenForest f ++ rest) = false := by
  match f with
  | [] => simpa [flattenForest]
  | t :: f' =>
    have ht : pureTree t = true := by
      have := h; simp [pureForest] at this; exact this.1
    rw [flattenForest, List.append_assoc]
    exact rawHead_flatten_append t ht _

theorem parse_partsF_cons_notclose (n : Nat) (tag : ContainerTag)
    (parts : List DocumentTree) (next : Token) (ts : List Token)
    (h : ∀ c, next ≠ .ContainerTagClose c) :
    parse_partsF (n + 1) tag parts (next :: ts) =
      (do
        let (child, ts') ← parse_docF n (next :: ts)
        parse_partsF n tag (child :: parts) ts') := by
  match next with
  | .ContainerTagClose c => exact absurd rfl (h c)
  | .ContainerTagOpen _ => simp [parse_partsF]
  | .ValueTag _ => simp [parse_partsF]
  | .RawText _ => simp [parse_partsF]
  | .TextBlock _ => simp [parse_partsF]

theorem parse_roundtrip_aux : ∀ N : Nat,
    (∀ t : DocumentTree, sizeOf t ≤ N → pureTree t = true →
      ∀ n rest, 2 * (flattenTree t).length ≤ n → rawHead rest = false →
        parse_docF (n + 1) (flattenTree t ++ rest) = .ok (t, rest)) ∧
    (∀ f : List DocumentTree, sizeOf f ≤ N → pureForest f = true →
      ∀ n tag parts rest, 2 * (flattenForest f).length + 1 ≤ n →
        parse_partsF (n + 1) tag parts
          (flattenForest f ++ .ContainerTagClose tag :: rest) =
          .ok (.ContainerNode tag (parts.reverse ++ f), rest)) := by
  intro N
  induction N with
  | zero =>
    constructor
    · intro t ht
      exfalso; cases t <;> simp_arith at ht
    · intro f hf
      exfalso; cases f <;> simp_arith at hf
  | succ N ih =>
    obtain ⟨ihT, ihF⟩ := ih
    constructor
    · intro t hsize hpure n rest hfuel hraw
      match t with
      | .TextNode s => simp [pureTree] at hpure
      | .Empty => simp [pureTree] at hpure
      | .ValueNode tag v =>
        have hv : v = [] := by simpa [pureTree, List.isEmpty_iff] using hpure
        subst hv
        simp [flattenTree, parse_docF, takeRawTexts_not_raw rest [] hraw]
      | .ContainerNode tag children =>
        have hpc : pureForest children = true := by simpa [pureTree] using hpure
        have hlen : (flattenTree (DocumentTree.ContainerNode tag children)).length
            = (flattenForest children).length + 2 := by
          simp [flattenTree]
        obtain ⟨m, rfl⟩ : ∃ m, n = m + 1 := ⟨n - 1, by omega⟩
        have hchild : sizeOf children ≤ N := by
          have := hsize; simp_arith at this; omega
        have : parse_docF (m + 1 + 1)
            (flattenTree (DocumentTree.ContainerNode tag children) ++ rest) =
            parse_partsF (m + 1) tag []
              (flattenForest children ++ .ContainerTagClose tag :: rest) := by
          simp [flattenTree, parse_docF]
        rw [this, ihF children hchild hpc m tag [] rest (by omega)]
        simp
    · intro f hsize hpure n tag parts rest hfuel
      match f with
      | [] =>
        simp [flattenForest, parse_partsF]
      | t :: f' =>
        have hpt : pureTree t = true := by
          have := hpure; simp [pureForest] at this; exact this.1
        have hpf : pureForest f' = true := by
          have := hpure; simp [pureForest] at this; exact this.2
        have hst : sizeOf t ≤ N := by
          have := hsize; simp_arith at this; omega
        have hsf : sizeOf f' ≤ N := by
          have := hsize; simp_arith at this; omega
        obtain ⟨tok, tl, heq, hnc, -⟩ := pure_flatten_head t hpt
        have hlenT : 1 ≤ (flattenTree t).length := by rw [heq]; simp
        have hlen : (flattenForest (t :: f')).length =
            (flattenTree t).length + (flattenForest f').length := by
          simp [flattenForest]
        obtain ⟨m, rfl⟩ : ∃ m, n = m + 1 := ⟨n - 1, by omega⟩
        have hassoc : flattenForest (t :: f') ++ .ContainerTagClose tag :: rest
            = tok :: (tl ++ (flattenForest f' ++ .ContainerTagClose tag :: rest)) := by
          rw [flattenForest, List.append_assoc, heq]
          simp
        rw [hassoc, parse_partsF_cons_notclose (m + 1) tag parts tok _ hnc]
        have hdoc : parse_docF (m + 1)
            (tok :: (tl ++ (flattenForest f' ++ .ContainerTagClose tag :: rest))) =
            .ok (t, flattenForest f' ++ .ContainerTagClose tag :: rest) := by
          have hrw : tok :: (tl ++ (flattenForest f' ++ .ContainerTagClose tag :: rest))
              = flattenTree t ++ (flattenForest f' ++ .ContainerTagClose tag :: rest) := by
            rw [heq]; simp
          rw [hrw]
          exact ihT t hst hpt m _ (by omega)
            (rawHead_flattenForest_append f' hpf _ (by simp [rawHead]))
        rw [hdoc]
        have hbind : (do
            let (child, ts') ← (Except.ok (t, flattenForest f' ++ .ContainerTagClose tag :: rest) :
              Except PError (DocumentTree × List Token))
            parse_partsF (m + 1) tag (child :: parts) ts') =
            parse_partsF (m + 1) tag (t :: parts)
              (flattenForest f' ++ .ContainerTagClose tag :: rest) := rfl
        rw [hbind, ihF f' hsf hpf m tag (t :: parts) rest (by omega)]
        simp

end Tree

namespace Tree

theorem parse_docF_flatten (t : DocumentTree) (h : pureTree t = true)
    (n : Nat) (rest : List Token) (hf : 2 * (flattenTree t).length ≤ n)
    (hr : rawHead rest = false) :
    parse_docF (n + 1) (flattenTree t ++ rest) = .ok (t, rest) :=
  (parse_roundtrip_aux (sizeOf t)).1 t le_rfl h n rest hf hr

theorem forest_length_le_flatten (f : List DocumentTree)
    (h : pureForest f = true) : f.length ≤ (flattenForest f).length := by
  induction f with
  | nil => simp
  | cons t f' ih =>
    have hpt : pureTree t = true := by
      have := h; simp [pureForest] at this; exact this.1
    have hpf : pureForest f' = true := by
      have := h; simp [pureForest] at this; exact this.2
    obtain ⟨tok, tl, heq, -, -⟩ := pure_flatten_head t hpt
    have h1 : 1 ≤ (flattenTree t).length := by rw [heq]; simp
    have := ih hpf
    simp only [flattenForest, List.length_cons, List.length_append]
    omega

theorem rawHead_flattenForest (f : List DocumentTree)
    (h : pureForest f = true) : rawHead (flattenForest f) = false := by
  have := rawHead_flattenForest_append f h [] (by rfl)
  simpa using this

theorem parse_all_of_pure (f : List DocumentTree) (h : pureForest f = true) :
    ∀ n, f.length ≤ n → parse_allF (n + 1) (flattenForest f) = .ok f := by
  induction f with
  | nil => intro n _; rfl
  | cons t f' ih =>
    intro n hn
    have hpt : pureTree t = true := by
      have := h; simp [pureForest] at this; exact this.1
    have hpf : pureForest f' = true := by
      have := h; simp [pureForest] at this; exact this.2
    obtain ⟨m, rfl⟩ : ∃ m, n = m + 1 := ⟨n - 1, by simp at hn; omega⟩
    obtain ⟨tok, tl, heq, -, -⟩ := pure_flatten_head t hpt
    have hsplit : flattenForest (t :: f') = tok :: (tl ++ flattenForest f') := by
      rw [flattenForest, heq]; simp
    have hfold : tok :: (tl ++ flattenForest f') = flattenTree t ++ flattenForest f' := by
      rw [heq]; simp
    have hkey : parse_doc (flattenTree t ++ flattenForest f') =
        .ok (t, flattenForest f') := by
      unfold parse_doc
      have hlen : (flattenTree t ++ flattenForest f').length =
          (flattenTree t).length + (flattenForest f').length := by simp
      rw [hlen]
      exact parse_docF_flatten t hpt _ _ (by omega) (rawHead_flattenForest f' hpf)
    rw [hsplit]
    show parse_allF (m + 1 + 1) (tok :: (tl ++ flattenForest f')) = _
    rw [parse_allF, hfold, hkey]
    have hih := ih hpf m (by simp at hn; omega)
    show (do
      let f'' ← parse_allF (m + 1) (flattenForest f')
      pure (t :: f'')) = _
    rw [hih]
    rfl

end Tree

/-- C8: for every well-formed token sequence obtained by flattening a forest
of container and (empty-valued) value nodes in legal nesting, building the
generic trees with `parse_doc` and re-flattening reproduces the original
tag/value token sequence, element for element, in order. -/
theorem parse_flatten_roundtrip (f : List Tree.DocumentTree)
    (h : Tree.pureForest f = true) :
    Tree.parse_all (Tree.flattenForest f) = .ok f ∧
    (Tree.parse_all (Tree.flattenForest f)).map Tree.flattenForest =
      .ok (Tree.flattenForest f) := by
  have h1 : Tree.parse_all (Tree.flattenForest f) = .ok f :=
    Tree.parse_all_of_pure f h (Tree.flattenForest f).length
      (Tree.forest_length_le_flatten f h)
  exact ⟨h1, by rw [h1]; rfl⟩

/-- Witness for C8 on a concrete two-tree forest with nested containers. -/
theorem parse_flatten_roundtrip_witness :
    Tree.parse_all (Tree.flattenForest
      [.ContainerNode .Filer [.ValueNode .Cik [], .ContainerNode .CompanyData []],
       .ValueNode .Sequence []]) =
      .ok [.ContainerNode .Filer [.ValueNode .Cik [], .ContainerNode .CompanyData []],
       .ValueNode .Sequence []] :=
  (parse_flatten_roundtrip
    [.ContainerNode .Filer [.ValueNode .Cik [], .ContainerNode .CompanyData []],
     .ValueNode .Sequence []] (by rfl)).1

namespace Lex

/-- Classified line shapes (`parse.rs`, `ParsedLine`). -/
inductive ParsedLine where
  | OpenTag (tag : RStr)
  | CloseTag (tag : RStr)
  | TagWithValue (tag : RStr) (value : RStr)
  deriving DecidableEq, Repr

/-- Strip a leading pattern from a string (Rust `str::strip_prefix` on the
`RStr` model). -/
def stripLead : RStr → RStr → Option RStr
  | [], s => some s
  | _ :: _, [] => none
  | p :: pre, c :: s => if c = p then stripLead pre s else none

/-- Drop leading whitespace (one side of Rust `str::trim`). -/
def trimLeft : RStr → RStr
  | [] => []
  | c :: s => if c.isWhitespace then trimLeft s else c :: s

/-- Rust `str::trim`: whitespace dropped from both ends. -/
def trim (s : RStr) : RStr := (trimLeft (trimLeft s).reverse).reverse

/-- Embedding of `parse_line` (`parse.rs`): split at the first `>`; a `</`
head is a close tag (any trailing value is the source's `panic!`), a `<` head
is an open tag when nothing follows the `>` and a tag-with-value line
otherwise; no `>` or no `<` head is a `panic!`. -/
def parse_line (line : RStr) : Except PError ParsedLine :=
  match line.findIdx? (fun c => c == '>') with
  | some i =>
    let tag := line.take i
    let value := line.drop (i + 1)
    match stripLead (strOf "</") tag with
    | some t =>
      if value ≠ [] then .error (.panicked "Unexpected value after closing tag")
      else .ok (.CloseTag t)
    | none =>
      match stripLead (strOf "<") tag with
      | some t =>
        if value = [] then .ok (.OpenTag t) else .ok (.TagWithValue t value)
      | none => .error (.panicked "Expected line to start with <")
  | none => .error (.panicked "Line did not contain >")

/-- Tokens as produced by the lexer (`tokens.rs`, `Token`). -/
inductive Token where
  | TagOpen (tag : ContainerTag)
  | TagClose (tag : ContainerTag)
  | TagValue (tag : VTag) (value : RStr)
  | TextData (content : RStr)
  deriving DecidableEq, Repr

/-- Raw-capture loop entered after an open tag for `TEXT` (`next_token`):
every subsequent line is appended verbatim (untrimmed, newline included)
until a line exactly equal to `</TEXT>\n` is read; end of input while
capturing is the source's `unimplemented!()`. -/
def captureText : List RStr → RStr → Except PError (RStr × List RStr)
  | [], _ => .error (.panicked "unimplemented")
  | v :: rest, body =>
    if v = strOf "</TEXT>\n" then .ok (body, rest)
    else captureText rest (body ++ v)

/-- Embedding of `next_token` (`tokens.rs`): reads one line (`none` at end of
input), trims it, classifies it with `parse_line`, and resolves the tag name
— for an open-tag line, `TEXT` switches to raw capture, otherwise the
container vocabulary is tried first and the value vocabulary second, a name
in neither vocabulary being a hard error. -/
def next_token (lines : List RStr) : Except PError (Option (Token × List RStr)) :=
  match lines with
  | [] => .ok none
  | line :: rest =>
    match parse_line (trim line) with
    | .error e => .error e
    | .ok (.OpenTag t) =>
      if t = strOf "TEXT" then
        match captureText rest [] with
        | .error e => .error e
        | .ok (body, rest') => .ok (some (.TextData body, rest'))
      else
        match ContainerTag.parse t with
        | .ok ct => .ok (some (.TagOpen ct, rest))
        | .error _ =>
          match ValueTag.parse t with
          | .ok vt => .ok (some (.TagValue vt [], rest))
          | .error e => .error e
    | .ok (.CloseTag t) =>
      match ContainerTag.parse t with
      | .ok ct => .ok (some (.TagClose ct, rest))
      | .error e => .error e
    | .ok (.TagWithValue t v) =>
      match ValueTag.parse t with
      | .ok vt => .ok (some (.TagValue vt v, rest))
      | .error e => .error e

/-- Fuelled embedding of `tokenize_submission` (`tokens.rs`): repeated
`next_token` until `none`; the `.unwrap()` of the source aborts the whole
tokenization on the first error, so no partial token stream escapes. -/
def tokenize_submissionF : Nat → List RStr → Except PError (List Token)
  | 0, _ => .error .outOfFuel
  | n + 1, lines =>
    match next_token lines with
    | .error e => .error e
    | .ok none => .ok []
    | .ok (some (tok, rest)) => do
      let toks ← tokenize_submissionF n rest
      .ok (tok :: toks)

/-- The lexer with enough fuel for its input (`next_token` consumes at least
one line whenever it yields a token). -/
def tokenize_submission (lines : List RStr) : Except PError (List Token) :=
  tokenize_submissionF (lines.length + 1) lines

theorem captureText_split (body : List RStr) (rest : List RStr) (acc : RStr)
    (h : strOf "</TEXT>\n" ∉ body) :
    captureText (body ++ strOf "</TEXT>\n" :: rest) acc = .ok (acc ++ body.flatten, rest) := by
  induction body generalizing acc with
  | nil => simp [captureText]
  | cons v body' ih =>
    have hv : v ≠ strOf "</TEXT>\n" := by
      intro hvv; exact h (by simp [hvv])
    have hmem : strOf "</TEXT>\n" ∉ body' := fun hm => h (by simp [hm])
    simp only [List.cons_append, captureText, if_neg (fun hvv => hv hvv), List.append_eq]
    rw [ih (acc ++ v) hmem]
    simp

end Lex

/-- C5: upon lexing an open tag for `TEXT`, every subsequent line is captured
verbatim (untrimmed, newlines preserved, tag-like content not tokenized) into
one opaque `TextData` token, the capture ending exactly at the first line
equal to the close marker `</TEXT>` (with its line terminator); the emitted
token's content is the concatenation of the raw lines in between. -/
theorem text_capture_verbatim (openLine : RStr) (body rest : List RStr)
    (hopen : Lex.trim openLine = strOf "<TEXT>")
    (hbody : strOf "</TEXT>\n" ∉ body) :
    Lex.next_token (openLine :: (body ++ strOf "</TEXT>\n" :: rest)) =
      .ok (some (.TextData body.flatten, rest)) := by
  have hpl : Lex.parse_line (strOf "<TEXT>") = .ok (.OpenTag (strOf "TEXT")) := rfl
  simp only [Lex.next_token, hopen, hpl, if_pos rfl, Lex.captureText_split body rest [] hbody]
  simp

/-- Witness for C5: a two-line body containing an embedded tag-like line is
captured verbatim. -/
theorem text_capture_verbatim_witness :
    Lex.next_token (strOf "<TEXT>\n" ::
        ([strOf "hello\n", strOf "<FILER>\n"] ++ strOf "</TEXT>\n" :: [])) =
      .ok (some (.TextData ([strOf "hello\n", strOf "<FILER>\n"]).flatten, [])) :=
  text_capture_verbatim (strOf "<TEXT>\n") [strOf "hello\n", strOf "<FILER>\n"] []
    (by rfl) (by decide)

/-- C6 counterexample: the trimmed line `<TEXT>` has the open-tag `<NAME>`
shape, yet the lexer emits no open-tag token and performs no vocabulary
resolution for it — it switches to raw capture and emits an opaque `TextData`
token instead. -/
theorem open_text_line_yields_text_token :
    Lex.tokenize_submission [strOf "<TEXT>\n", strOf "</TEXT>\n"] =
      .ok [.TextData []] := rfl

/-- C6 (amended): for every line of open-tag shape `<NAME>` whose name is not
the special raw-capture tag `TEXT`, the name is resolved against the
container vocabulary first (a match yields a container-open token), then
against the value vocabulary (a match yields a value token with empty value);
a name in neither vocabulary is a hard `InvalidValueTag` error which aborts
the whole tokenization, so no partial token stream is returned. -/
theorem open_tag_resolution (raw name : RStr) (rest : List RStr)
    (hshape : Lex.parse_line (Lex.trim raw) = .ok (.OpenTag name))
    (hntext : name ≠ strOf "TEXT") :
    (∀ ct, ContainerTag.parse name = .ok ct →
      Lex.next_token (raw :: rest) = .ok (some (.TagOpen ct, rest))) ∧
    (∀ e vt, ContainerTag.parse name = .error e → ValueTag.parse name = .ok vt →
      Lex.next_token (raw :: rest) = .ok (some (.TagValue vt [], rest))) ∧
    (∀ e e', ContainerTag.parse name = .error e → ValueTag.parse name = .error e' →
      Lex.next_token (raw :: rest) = .error e' ∧
      Lex.tokenize_submission (raw :: rest) = .error e') := by
  refine ⟨fun ct hc => ?_, fun e vt hc hv => ?_, fun e e' hc hv => ?_⟩
  · simp [Lex.next_token, hshape, hntext, hc]
  · simp [Lex.next_token, hshape, hntext, hc, hv]
  · have hnt : Lex.next_token (raw :: rest) = .error e' := by
      simp [Lex.next_token, hshape, hntext, hc, hv]
    refine ⟨hnt, ?_⟩
    simp [Lex.tokenize_submission, Lex.tokenize_submissionF, hnt]

/-- Witness for C6: `FILER` resolves to a container-open token, `SEQUENCE`
(a value name) yields a value token with empty value, and the unknown name
`ZZZ` aborts a whole two-line tokenization with `InvalidValueTag`. -/
theorem open_tag_resolution_witness :
    Lex.next_token [strOf "<FILER>\n"] = .ok (some (.TagOpen .Filer, [])) ∧
    Lex.next_token [strOf "<SEQUENCE>\n"] = .ok (some (.TagValue .Sequence [], [])) ∧
    Lex.tokenize_submission [strOf "<ZZZ>\n", strOf "<FILER>\n"] =
      .error (.InvalidValueTag (strOf "ZZZ")) :=
  ⟨(open_tag_resolution (strOf "<FILER>\n") (strOf "FILER") [] (by rfl) (by decide)).1
      .Filer (by rfl),
   (open_tag_resolution (strOf "<SEQUENCE>\n") (strOf "SEQUENCE") [] (by rfl)
      (by decide)).2.1 (.InvalidContainerTag (strOf "SEQUENCE")) .Sequence (by rfl) (by rfl),
   ((open_tag_resolution (strOf "<ZZZ>\n") (strOf "ZZZ") [strOf "<FILER>\n"] (by rfl)
      (by decide)).2.2 (.InvalidContainerTag (strOf "ZZZ")) (.InvalidValueTag (strOf "ZZZ"))
      (by rfl) (by rfl)).2⟩

/-- Rust `u32`/`usize` `str::parse` on the model: optional leading `+`, then
one or more digits, nothing else; the result must fit below `bound`. -/
def rustParseNat (bound : Nat) (s : RStr) : Option Nat :=
  let t := match s with
    | '+' :: t => t
    | t => t
  if t = [] then none
  else if t.all Char.isDigit then
    let v := t.foldl (fun a c => a * 10 + (c.toNat - 48)) 0
    if v < bound then some v else none
  else none

/-- Calendar dates (chrono `NaiveDate` at its interface). -/
structure NaiveDate where
  year : Int
  month : Nat
  day : Nat
  deriving DecidableEq, Repr

/-- Gregorian leap years. -/
def isLeapYear (y : Int) : Bool := (y % 4 == 0 && y % 100 != 0) || y % 400 == 0

/-- Days in a month of a given year. -/
def daysInMonth (y : Int) (m : Nat) : Nat :=
  if m = 2 then (if isLeapYear y then 29 else 28)
  else if m = 4 ∨ m = 6 ∨ m = 9 ∨ m = 11 then 30
  else 31

/-- Modelled from the spec: `parse_date` (`types.rs`) — an 8-digit `YYYYMMDD`
string parsed by chrono's `%Y%m%d` and `.unwrap()`-ed; anything that is not a
valid calendar date of that shape panics. -/
def parse_date (s : RStr) : Except PError NaiveDate :=
  if s.length = 8 ∧ s.all Char.isDigit then
    let y : Int := Int.ofNat ((s.take 4).foldl (fun a c => a * 10 + (c.toNat - 48)) 0)
    let m := ((s.drop 4).take 2).foldl (fun a c => a * 10 + (c.toNat - 48)) 0
    let d := (s.drop 6).foldl (fun a c => a * 10 + (c.toNat - 48)) 0
    if 1 ≤ m ∧ m ≤ 12 ∧ 1 ≤ d ∧ d ≤ daysInMonth y m then .ok ⟨y, m, d⟩
    else .error (.panicked "invalid date")
  else .error (.panicked "invalid date")

/-- Timestamps (chrono `NaiveDateTime` at its interface). -/
structure NaiveDateTime where
  date : NaiveDate
  hour : Nat
  minute : Nat
  second : Nat
  deriving DecidableEq, Repr

/-- Modelled from the spec: `parse_date_time` (`types.rs`) — a
`YYYYMMDD:HHMMSS` string parsed by chrono's `%Y%m%d:%H%M%S` and
`.unwrap()`-ed. -/
def parse_date_time (s : RStr) : Except PError NaiveDateTime :=
  match parse_date (s.take 8) with
  | .error e => .error e
  | .ok d =>
    let t := s.drop 8
    if t.length = 7 ∧ t.take 1 = strOf ":" ∧ (t.drop 1).all Char.isDigit then
      let hh := ((t.drop 1).take 2).foldl (fun a c => a * 10 + (c.toNat - 48)) 0
      let mm := ((t.drop 3).take 2).foldl (fun a c => a * 10 + (c.toNat - 48)) 0
      let ss := (t.drop 5).foldl (fun a c => a * 10 + (c.toNat - 48)) 0
      if hh < 24 ∧ mm < 60 ∧ ss < 60 then .ok ⟨d, hh, mm, ss⟩
      else .error (.panicked "invalid time")
    else .error (.panicked "invalid time")

/-- The `parse_bool` of `types.rs`: the literal `Y`/`N`, anything else the
source's `panic!("h1")`. -/
def parse_bool (v : RStr) : Except PError Bool :=
  if v = strOf "N" then .ok false
  else if v = strOf "Y" then .ok true
  else .error (.panicked "h1")

/-- A month/day pair (`types.rs`, `MonthDayPair`; the chrono `Month` is kept
as its 1-12 number). -/
structure MonthDayPair where
  month : Nat
  day : Nat
  deriving DecidableEq, Repr

/-- The `MonthDayPair::parse` of `types.rs`: the first two characters parse as
the month number (1-12, `Month::from_u32(..).unwrap()`), the remainder as the
day; slice or parse failures are panics. -/
def MonthDayPair.parse (st : RStr) : Except PError MonthDayPair :=
  if st.length < 2 then .error (.panicked "byte index out of bounds")
  else
    match rustParseNat (2 ^ 32) (st.take 2), rustParseNat (2 ^ 32) (st.drop 2) with
    | some m, some d =>
      if 1 ≤ m ∧ m ≤ 12 then .ok ⟨m, d⟩
      else .error (.panicked "invalid month")
    | _, _ => .error (.panicked "parse failure")

/-- Document body classification (`document_body.rs`, `DataType`). -/
inductive DataType where
  | Plaintext | Xml | Pdf | Xbrl
  deriving DecidableEq, Repr

/-- Document bodies (`document_body.rs`, `DocumentBody`): decoded binary
attachments (filename and bytes) or verbatim text. -/
inductive DocumentBody where
  | BinaryData (filename : RStr) (data : List Nat)
  | Text (content : RStr)
  deriving DecidableEq, Repr

/-- Strip a trailing pattern (Rust `str::strip_suffix` on the model). -/
def stripTail (suf s : RStr) : Option RStr :=
  (Lex.stripLead suf.reverse s.reverse).map List.reverse

/-- Whether `s` begins with the pattern `pre` (Rust `str::starts_with`). -/
def beginsWith (pre s : RStr) : Bool := (Lex.stripLead pre s).isSome

/-- Six-bit value of a uuencoded character. -/
def uuCharVal (c : Char) : Nat := (c.toNat - 32) % 64

/-- Decode full groups of four uuencoded characters into three bytes each. -/
def uuDecodeGroups : List Char → List Nat
  | a :: b :: c :: d :: rest =>
    let va := uuCharVal a
    let vb := uuCharVal b
    let vc := uuCharVal c
    let vd := uuCharVal d
    (va * 4 + vb / 16) :: ((vb % 16) * 16 + vc / 4) :: ((vc % 4) * 64 + vd) ::
      uuDecodeGroups rest
  | _ => []

/-- Decode uuencoded body lines: each line's first character is its decoded
byte count, a zero-length line terminates the payload; a missing terminator
is a decode failure. -/
def uuDecodeBody : List RStr → Option (List Nat)
  | [] => none
  | [] :: _ => none
  | (c :: chars) :: rest =>
    let n := uuCharVal c
    if n = 0 then some []
    else
      match uuDecodeBody rest with
      | some bs => some ((uuDecodeGroups chars).take n ++ bs)
      | none => none

/-- Split a string into lines at `\n` (Rust `str::lines` at the granularity
this decoder needs). -/
def splitLinesAux : RStr → RStr → List RStr
  | [], acc => [acc.reverse]
  | '\n' :: rest, acc => acc.reverse :: splitLinesAux rest []
  | c :: rest, acc => splitLinesAux rest (c :: acc)

/-- All lines of a string. -/
def splitLines (s : RStr) : List RStr := splitLinesAux s []

/-- Modelled from the spec: the external `uuencode` crate's `uudecode` —
the header line `begin <mode> <filename>` recovers the filename, the
following lines decode per standard uuencode rules into raw bytes, and any
malformed payload yields `None`. -/
def uudecode (input : RStr) : Option (List Nat × RStr) :=
  match splitLines input with
  | [] => none
  | header :: rest =>
    match Lex.stripLead (strOf "begin ") header with
    | none => none
    | some tail =>
      let fname := (tail.dropWhile (fun c => !(c == ' '))).drop 1
      match uuDecodeBody rest with
      | some bs => some (bs, fname)
      | none => none

/-- Embedding of `DocumentBody::from_string` (`document_body.rs`): content
starting with the literal `begin 644` is uudecoded into a binary body with
the recovered filename (`unwrap` panicking on decode failure); any other
content is kept verbatim as a text body. -/
def DocumentBody.from_string (st : RStr) : Except PError DocumentBody :=
  if beginsWith (strOf "begin 644") st then
    match uudecode st with
    | some (data, filename) => .ok (.BinaryData filename data)
    | none => .error (.panicked "uudecode unwrap")
  else .ok (.Text st)

/-- Typed document payloads (`document_body.rs`, `TypedData`). -/
structure TypedData where
  data_type : DataType
  body : DocumentBody
  deriving DecidableEq, Repr

/-- Embedding of `TypedData::from_string` (`document_body.rs`): the trimmed
content is tested for the literal wrappers `<XML>`, `<PDF>`, `<XBRL>` in that
order (the matching closing wrapper is stripped with `unwrap`, panicking when
absent), fixing the `DataType`; unwrapped content falls through as
`Plaintext`. The inner content is then decoded by
`DocumentBody::from_string`. Note the source tags the `<XBRL>` wrapper as
`DataType::Pdf`, not `DataType::Xbrl`. -/
def TypedData.from_string (st0 : RStr) : Except PError TypedData :=
  let st := Lex.trim st0
  match Lex.stripLead (strOf "<XML>") st with
  | some inner =>
    match stripTail (strOf "</XML>") inner with
    | some inner' => (DocumentBody.from_string inner').map fun b => ⟨.Xml, b⟩
    | none => .error (.panicked "strip_suffix unwrap")
  | none =>
    match Lex.stripLead (strOf "<PDF>") st with
    | some inner =>
      match stripTail (strOf "</PDF>") inner with
      | some inner' => (DocumentBody.from_string inner').map fun b => ⟨.Pdf, b⟩
      | none => .error (.panicked "strip_suffix unwrap")
    | none =>
      match Lex.stripLead (strOf "<XBRL>") st with
      | some inner =>
        match stripTail (strOf "</XBRL>") inner with
        | some inner' => (DocumentBody.from_string inner').map fun b => ⟨.Pdf, b⟩
        | none => .error (.panicked "strip_suffix unwrap")
      | none => (DocumentBody.from_string st).map fun b => ⟨.Plaintext, b⟩

/-- C7: evaluation of the document body decoder — `<XML>` and `<PDF>`
wrappers classify as `Xml` and `Pdf` and unwrapped content as `Plaintext`,
with inner content decoded (uuencoded `begin 644` payloads to a binary body
with the recovered filename, otherwise a verbatim text body); but the
`<XBRL>` wrapper is classified as `Pdf`, not as the structured-financial
`Xbrl` the claim states. -/
theorem typed_data_classification_eval :
    TypedData.from_string (strOf "<XBRL>x</XBRL>") = .ok ⟨.Pdf, .Text (strOf "x")⟩ ∧
    TypedData.from_string (strOf "<XML>y</XML>") = .ok ⟨.Xml, .Text (strOf "y")⟩ ∧
    TypedData.from_string (strOf "<PDF>z</PDF>") = .ok ⟨.Pdf, .Text (strOf "z")⟩ ∧
    TypedData.from_string (strOf "plain content") =
      .ok ⟨.Plaintext, .Text (strOf "plain content")⟩ ∧
    DocumentBody.from_string (strOf "begin 644 report.pdf\n#0V%T\n`\nend\n") =
      .ok (.BinaryData (strOf "report.pdf") [67, 97, 116]) ∧
    (strOf "Cat").map Char.toNat = [67, 97, 116] :=
  ⟨rfl, rfl, rfl, rfl, rfl, rfl⟩

/-- Filing values (`schema.rs`, `FilingValues`). -/
structure FilingValues where
  form_type : RStr
  act : Option RStr
  file_number : Option RStr
  film_number : Option RStr
  deriving DecidableEq, Repr

/-- Mutable locals of `FilingValues::from_parts`. -/
structure FilingValues.State where
  form_type : Option RStr := none
  act : Option RStr := none
  file_number : Option RStr := none
  film_number : Option RStr := none
  deriving DecidableEq, Repr

/-- One iteration of the `FilingValues::from_parts` scan loop. -/
def FilingValues.stepChild (st : FilingValues.State) (part : Tree.DocumentTree) :
    Except PError FilingValues.State :=
  match part with
  | .ValueNode tag value =>
    match tag with
    | .FormType =>
      if st.form_type.isSome then .error (.panicked "assertion failed")
      else .ok {st with form_type := some value}
    | .Act =>
      if st.act.isSome then .error (.panicked "assertion failed")
      else .ok {st with act := some value}
    | .FileNumber =>
      if st.file_number.isSome then .error (.panicked "assertion failed")
      else .ok {st with file_number := some value}
    | .FilmNumber =>
      if st.film_number.isSome then .error (.panicked "assertion failed")
      else .ok {st with film_number := some value}
    | _ => .error (.panicked "Unexpected part")
  | _ => .error (.panicked "Unexpected part")

/-- Finalization of `FilingValues::from_parts` (`form_type` is mandatory). -/
def FilingValues.finalize (st : FilingValues.State) : Except PError FilingValues :=
  match st.form_type with
  | none => .error (.panicked "unwrap on None")
  | some ft => .ok ⟨ft, st.act, st.file_number, st.film_number⟩

/-- The scan loop of `FilingValues::from_parts`. -/
def FilingValues.go : FilingValues.State → List Tree.DocumentTree →
    Except PError FilingValues
  | st, [] => FilingValues.finalize st
  | st, p :: rest => do
    let st' ← FilingValues.stepChild st p
    FilingValues.go st' rest

/-- Embedding of `FilingValues::from_parts` (`schema.rs`). -/
def FilingValues.from_parts (parts : List Tree.DocumentTree) :
    Except PError FilingValues :=
  FilingValues.go {} parts

/-- Company data (`schema.rs`, `CompanyData`, newer generation with
`relationship`). -/
structure CompanyData where
  conformed_name : RStr
  cik : RStr
  irs_number : Option RStr
  state_of_incorporation : Option RStr
  fiscal_year_end : Option MonthDayPair
  assigned_sic : Option RStr
  relationship : Option RStr
  deriving DecidableEq, Repr

/-- Mutable locals of `CompanyData::from_parts`. -/
structure CompanyData.State where
  conformed_name : Option RStr := none
  cik : Option RStr := none
  irs_number : Option RStr := none
  state_of_incorporation : Option RStr := none
  fiscal_year_end : Option MonthDayPair := none
  assigned_sic : Option RStr := none
  relationship : Option RStr := none
  deriving DecidableEq, Repr

/-- One iteration of the `CompanyData::from_parts` scan loop. -/
def CompanyData.stepChild (st : CompanyData.State) (part : Tree.DocumentTree) :
    Except PError CompanyData.State :=
  match part with
  | .ValueNode tag value =>
    match tag with
    | .ConformedName =>
      if st.conformed_name.isSome then .error (.panicked "assertion failed")
      else .ok {st with conformed_name := some value}
    | .Cik =>
      if st.cik.isSome then .error (.panicked "assertion failed")
      else .ok {st with cik := some value}
    | .IrsNumber =>
      if st.irs_number.isSome then .error (.panicked "assertion failed")
      else .ok {st with irs_number := some value}
    | .StateOfInforporation =>
      if st.state_of_incorporation.isSome then .error (.panicked "assertion failed")
      else .ok {st with state_of_incorporation := some value}
    | .FiscalYearEnd =>
      if st.fiscal_year_end.isSome then .error (.panicked "assertion failed")
      else do
        let fy ← MonthDayPair.parse value
        .ok {st with fiscal_year_end := some fy}
    | .AssignedSic =>
      if st.assigned_sic.isSome then .error (.panicked "assertion failed")
      else .ok {st with assigned_sic := some value}
    | .Relationship =>
      if st.relationship.isSome then .error (.panicked "assertion failed")
      else .ok {st with relationship := some value}
    | _ => .error (.panicked "Unexpected part")
  | _ => .error (.panicked "Unexpected part")

/-- Finalization of `CompanyData::from_parts` (`conformed_name` and `cik`
are mandatory). -/
def CompanyData.finalize (st : CompanyData.State) : Except PError CompanyData :=
  match st.conformed_name, st.cik with
  | some cn, some ck =>
    .ok ⟨cn, ck, st.irs_number, st.state_of_incorporation, st.fiscal_year_end,
      st.assigned_sic, st.relationship⟩
  | _, _ => .error (.panicked "unwrap on None")

/-- The scan loop of `CompanyData::from_parts`. -/
def CompanyData.go : CompanyData.State → List Tree.DocumentTree →
    Except PError CompanyData
  | st, [] => CompanyData.finalize st
  | st, p :: rest => do
    let st' ← CompanyData.stepChild st p
    CompanyData.go st' rest

/-- Embedding of `CompanyData::from_parts` (`schema.rs`). -/
def CompanyData.from_parts (parts : List Tree.DocumentTree) :
    Except PError CompanyData :=
  CompanyData.go {} parts

/-- Addresses (`schema.rs`, `Address`). -/
structure Address where
  street1 : Option RStr
  street2 : Option RStr
  city : Option RStr
  state : Option RStr
  zip : Option RStr
  phone : Option RStr
  deriving DecidableEq, Repr

/-- One iteration of the `Address::from_parts` scan loop (the state and the
record coincide: every field is optional). -/
def Address.stepChild (st : Address) (part : Tree.DocumentTree) :
    Except PError Address :=
  match part with
  | .ValueNode tag value =>
    match tag with
    | .Street1 =>
      if st.street1.isSome then .error (.panicked "assertion failed")
      else .ok {st with street1 := some value}
    | .Street2 =>
      if st.street2.isSome then .error (.panicked "assertion failed")
      else .ok {st with street2 := some value}
    | .City =>
      if st.city.isSome then .error (.panicked "assertion failed")
      else .ok {st with city := some value}
    | .State =>
      if st.state.isSome then .error (.panicked "assertion failed")
      else .ok {st with state := some value}
    | .Zip =>
      if st.zip.isSome then .error (.panicked "assertion failed")
      else .ok {st with zip := some value}
    | .Phone =>
      if st.phone.isSome then .error (.panicked "assertion failed")
      else .ok {st with phone := some value}
    | _ => .error (.panicked "Unexpected part")
  | _ => .error (.panicked "Unexpected part")

/-- The scan loop of `Address::from_parts`. -/
def Address.go : Address → List Tree.DocumentTree → Except PError Address
  | st, [] => .ok st
  | st, p :: rest => do
    let st' ← Address.stepChild st p
    Address.go st' rest

/-- Embedding of `Address::from_parts` (`schema.rs`). -/
def Address.from_parts (parts : List Tree.DocumentTree) : Except PError Address :=
  Address.go ⟨none, none, none, none, none, none⟩ parts

/-- Former names of a company (`schema.rs`, `FormerCompany`). -/
structure FormerCompany where
  former_conformed_name : RStr
  date_changed : NaiveDate
  deriving DecidableEq, Repr

/-- Mutable locals of `FormerCompany::from_parts`. -/
structure FormerCompany.State where
  former_conformed_name : Option RStr := none
  date_changed : Option NaiveDate := none
  deriving DecidableEq, Repr

/-- One iteration of the `FormerCompany::from_parts` scan loop. -/
def FormerCompany.stepChild (st : FormerCompany.State) (part : Tree.DocumentTree) :
    Except PError FormerCompany.State :=
  match part with
  | .ValueNode tag value =>
    match tag with
    | .FormerConformedName =>
      if st.former_conformed_name.isSome then .error (.panicked "assertion failed")
      else .ok {st with former_conformed_name := some value}
    | .DateChanged =>
      if st.date_changed.isSome then .error (.panicked "assertion failed")
      else do
        let d ← parse_date value
        .ok {st with date_changed := some d}
    | _ => .error (.panicked "Unexpected part")
  | _ => .error (.panicked "Unexpected part")

/-- Finalization of `FormerCompany::from_parts` (both fields mandatory). -/
def FormerCompany.finalize (st : FormerCompany.State) : Except PError FormerCompany :=
  match st.former_conformed_name, st.date_changed with
  | some n, some d => .ok ⟨n, d⟩
  | _, _ => .error (.panicked "unwrap on None")

/-- The scan loop of `FormerCompany::from_parts`. -/
def FormerCompany.go : FormerCompany.State → List Tree.DocumentTree →
    Except PError FormerCompany
  | st, [] => FormerCompany.finalize st
  | st, p :: rest => do
    let st' ← FormerCompany.stepChild st p
    FormerCompany.go st' rest

/-- Embedding of `FormerCompany::from_parts` (`schema.rs`). -/
def FormerCompany.from_parts (parts : List Tree.DocumentTree) :
    Except PError FormerCompany :=
  FormerCompany.go {} parts

/-- Filer entities (`schema.rs`, `Company`, newer generation: repeated
`filing_values`, `former_name` and `former_company`). -/
structure Company where
  company_data : Option CompanyData
  filing_values : List FilingValues
  business_address : Option Address
  mail_address : Option Address
  owner_data : Option CompanyData
  former_name : List FormerCompany
  former_company : List FormerCompany
  deriving DecidableEq, Repr

/-- Mutable locals of `Company::from_parts`. -/
structure Company.State where
  company_data : Option CompanyData := none
  filing_values : List FilingValues := []
  business_address : Option Address := none
  mail_address : Option Address := none
  owner_data : Option CompanyData := none
  former_name : List FormerCompany := []
  former_company : List FormerCompany := []
  deriving DecidableEq, Repr

/-- One iteration of the `Company::from_parts` scan loop: container children
only; `COMPANY-DATA`, the two addresses and `OWNER-DATA` are
assign-once-with-assert, `FILING-VALUES` and the two former-name containers
append in encounter order. -/
def Company.stepChild (st : Company.State) (part : Tree.DocumentTree) :
    Except PError Company.State :=
  match part with
  | .ContainerNode tag sub =>
    match tag with
    | .CompanyData =>
      if st.company_data.isSome then .error (.panicked "assertion failed")
      else do
        let cd ← CompanyData.from_parts sub
        .ok {st with company_data := some cd}
    | .FilingValues => do
      let fv ← FilingValues.from_parts sub
      .ok {st with filing_values := st.filing_values ++ [fv]}
    | .BusinessAddress =>
      if st.business_address.isSome then .error (.panicked "assertion failed")
      else do
        let a ← Address.from_parts sub
        .ok {st with business_address := some a}
    | .MailAddress =>
      if st.mail_address.isSome then .error (.panicked "assertion failed")
      else do
        let a ← Address.from_parts sub
        .ok {st with mail_address := some a}
    | .FormerCompany => do
      let fc ← FormerCompany.from_parts sub
      .ok {st with former_company := st.former_company ++ [fc]}
    | .OwnerData =>
      if st.owner_data.isSome then .error (.panicked "assertion failed")
      else do
        let od ← CompanyData.from_parts sub
        .ok {st with owner_data := some od}
    | .FormerName => do
      let fn ← FormerCompany.from_parts sub
      .ok {st with former_name := st.former_name ++ [fn]}
    | _ => .error (.panicked "unimplemented")
  | _ => .error (.panicked "Unexpected part")

/-- The scan loop of `Company::from_parts`. -/
def Company.go : Company.State → List Tree.DocumentTree → Except PError Company
  | st, [] => .ok ⟨st.company_data, st.filing_values, st.business_address,
      st.mail_address, st.owner_data, st.former_name, st.former_company⟩
  | st, p :: rest => do
    let st' ← Company.stepChild st p
    Company.go st' rest

/-- Embedding of `Company::from_parts` (`schema.rs`). -/
def Company.from_parts (parts : List Tree.DocumentTree) : Except PError Company :=
  Company.go {} parts

/-- Documents (`schema.rs`, `Document`, newer generation: optional filename,
typed optional body, `flawed` flag). -/
structure Document where
  doc_type : RStr
  sequence : Nat
  filename : Option RStr
  body : Option TypedData
  description : Option RStr
  flawed : Bool
  deriving DecidableEq, Repr

/-- Mutable locals of `Document::from_parts`. -/
structure Document.State where
  doc_type : Option RStr := none
  sequence : Option Nat := none
  filename : Option RStr := none
  body : Option TypedData := none
  description : Option RStr := none
  flawed : Bool := false
  deriving DecidableEq, Repr

/-- One iteration of the `Document::from_parts` scan loop: `TYPE`,
`SEQUENCE`, `FILENAME` and `DESCRIPTION` are assign-once-with-assert,
`FLAWED` sets the flag ignoring its value, and a text child becomes the typed
body via `TypedData::from_string`. -/
def Document.stepChild (st : Document.State) (part : Tree.DocumentTree) :
    Except PError Document.State :=
  match part with
  | .ValueNode tag value =>
    match tag with
    | .Type =>
      if st.doc_type.isSome then .error (.panicked "assertion failed")
      else .ok {st with doc_type := some value}
    | .Sequence =>
      if st.sequence.isSome then .error (.panicked "assertion failed")
      else
        match rustParseNat (2 ^ 32) value with
        | some n => .ok {st with sequence := some n}
        | none => .error (.panicked "unwrap on Err")
    | .Filename =>
      if st.filename.isSome then .error (.panicked "assertion failed")
      else .ok {st with filename := some value}
    | .Description =>
      if st.description.isSome then .error (.panicked "assertion failed")
      else .ok {st with description := some value}
    | .Flawed => .ok {st with flawed := true}
    | _ => .error (.panicked "Unexpected part")
  | .TextNode t => do
    let td ← TypedData.from_string t
    .ok {st with body := some td}
  | _ => .error (.panicked "Unexpected part")

/-- Finalization of `Document::from_parts` (`doc_type` and `sequence` are
mandatory). -/
def Document.finalize (st : Document.State) : Except PError Document :=
  match st.doc_type, st.sequence with
  | some t, some s => .ok ⟨t, s, st.filename, st.body, st.description, st.flawed⟩
  | _, _ => .error (.panicked "unwrap on None")

/-- The scan loop of `Document::from_parts`. -/
def Document.go : Document.State → List Tree.DocumentTree → Except PError Document
  | st, [] => Document.finalize st
  | st, p :: rest => do
    let st' ← Document.stepChild st p
    Document.go st' rest

/-- Embedding of `Document::from_parts` (`schema.rs`). -/
def Document.from_parts (parts : List Tree.DocumentTree) : Except PError Document :=
  Document.go {} parts

/-- Class contracts (`schema.rs`, `ClassContract`). -/
structure ClassContract where
  class_contract_id : RStr
  class_contract_name : RStr
  class_contract_ticker_symbol : Option RStr
  deriving DecidableEq, Repr

/-- Mutable locals of `ClassContract::from_parts`. -/
structure ClassContract.State where
  class_contract_id : Option RStr := none
  class_contract_name : Option RStr := none
  class_contract_ticker_symbol : Option RStr := none
  deriving DecidableEq, Repr

/-- One iteration of the `ClassContract::from_parts` scan loop. -/
def ClassContract.stepChild (st : ClassContract.State) (part : Tree.DocumentTree) :
    Except PError ClassContract.State :=
  match part with
  | .ValueNode tag value =>
    match tag with
    | .ClassContractId =>
      if st.class_contract_id.isSome then .error (.panicked "assertion failed")
      else .ok {st with class_contract_id := some value}
    | .ClassContractName =>
      if st.class_contract_name.isSome then .error (.panicked "assertion failed")
      else .ok {st with class_contract_name := some value}
    | .ClassContractTickerSymbol =>
      if st.class_contract_ticker_symbol.isSome then .error (.panicked "assertion failed")
      else .ok {st with class_contract_ticker_symbol := some value}
    | _ => .error (.panicked "Unexpected part")
  | _ => .error (.panicked "Unexpected part")

/-- Finalization of `ClassContract::from_parts` (id and name mandatory). -/
def ClassContract.finalize (st : ClassContract.State) : Except PError ClassContract :=
  match st.class_contract_id, st.class_contract_name with
  | some i, some n => .ok ⟨i, n, st.class_contract_ticker_symbol⟩
  | _, _ => .error (.panicked "unwrap on None")

/-- The scan loop of `ClassContract::from_parts`. -/
def ClassContract.go : ClassContract.State → List Tree.DocumentTree →
    Except PError ClassContract
  | st, [] => ClassContract.finalize st
  | st, p :: rest => do
    let st' ← ClassContract.stepChild st p
    ClassContract.go st' rest

/-- Embedding of `ClassContract::from_parts` (`schema.rs`). -/
def ClassContract.from_parts (parts : List Tree.DocumentTree) :
    Except PError ClassContract :=
  ClassContract.go {} parts

/-- Fund series (`schema.rs`, `Series`). -/
structure Series where
  owner_cik : Option RStr
  series_id : RStr
  series_name : RStr
  class_contracts : List ClassContract
  deriving DecidableEq, Repr

/-- Mutable locals of `Series::from_parts`. -/
structure Series.State where
  owner_cik : Option RStr := none
  series_id : Option RStr := none
  series_name : Option RStr := none
  class_contracts : List ClassContract := []
  deriving DecidableEq, Repr

/-- One iteration of the `Series::from_parts` scan loop. -/
def Series.stepChild (st : Series.State) (part : Tree.DocumentTree) :
    Except PError Series.State :=
  match part with
  | .ValueNode tag value =>
    match tag with
    | .OwnerCik =>
      if st.owner_cik.isSome then .error (.panicked "assertion failed")
      else .ok {st with owner_cik := some value}
    | .SeriesId =>
      if st.series_id.isSome then .error (.panicked "assertion failed")
      else .ok {st with series_id := some value}
    | .SeriesName =>
      if st.series_name.isSome then .error (.panicked "assertion failed")
      else .ok {st with series_name := some value}
    | _ => .error (.panicked "Unexpected part")
  | .ContainerNode tag sub =>
    match tag with
    | .ClassContract => do
      let cc ← ClassContract.from_parts sub
      .ok {st with class_contracts := st.class_contracts ++ [cc]}
    | _ => .error (.panicked "unimplemented")
  | _ => .error (.panicked "Unexpected part")

/-- Finalization of `Series::from_parts` (id and name mandatory). -/
def Series.finalize (st : Series.State) : Except PError Series :=
  match st.series_id, st.series_name with
  | some i, some n => .ok ⟨st.owner_cik, i, n, st.class_contracts⟩
  | _, _ => .error (.panicked "unwrap on None")

/-- The scan loop of `Series::from_parts`. -/
def Series.go : Series.State → List Tree.DocumentTree → Except PError Series
  | st, [] => Series.finalize st
  | st, p :: rest => do
    let st' ← Series.stepChild st p
    Series.go st' rest

/-- Embedding of `Series::from_parts` (`schema.rs`). -/
def Series.from_parts (parts : List Tree.DocumentTree) : Except PError Series :=
  Series.go {} parts

/-- Acquiring side of a merger (`schema.rs`, `AcquiringData`). -/
structure AcquiringData where
  cik : RStr
  series : Series
  deriving DecidableEq, Repr

/-- Mutable locals of `AcquiringData::from_parts`. -/
structure AcquiringData.State where
  series : Option Series := none
  cik : Option RStr := none
  deriving DecidableEq, Repr

/-- One iteration of the `AcquiringData::from_parts` scan loop: a `CIK` value
child and a single `SERIES` container child, both assert-once; anything else
panics. -/
def AcquiringData.stepChild (st : AcquiringData.State) (part : Tree.DocumentTree) :
    Except PError AcquiringData.State :=
  match part with
  | .ValueNode .Cik value =>
    if st.cik.isSome then .error (.panicked "assertion failed")
    else .ok {st with cik := some value}
  | .ContainerNode .Series sub =>
    if st.series.isSome then .error (.panicked "assertion failed")
    else do
      let s ← Series.from_parts sub
      .ok {st with series := some s}
  | _ => .error (.panicked "Unexpected part")

/-- Finalization of `AcquiringData::from_parts` (both fields mandatory). -/
def AcquiringData.finalize (st : AcquiringData.State) : Except PError AcquiringData :=
  match st.series, st.cik with
  | some s, some c => .ok ⟨c, s⟩
  | _, _ => .error (.panicked "unwrap on None")

/-- The scan loop of `AcquiringData::from_parts`. -/
def AcquiringData.go : AcquiringData.State → List Tree.DocumentTree →
    Except PError AcquiringData
  | st, [] => AcquiringData.finalize st
  | st, p :: rest => do
    let st' ← AcquiringData.stepChild st p
    AcquiringData.go st' rest

/-- Embedding of `AcquiringData::from_parts` (`schema.rs`). -/
def AcquiringData.from_parts (parts : List Tree.DocumentTree) :
    Except PError AcquiringData :=
  AcquiringData.go {} parts

/-- Target side of a merger (`schema.rs`, `TargetData`: repeated series). -/
structure TargetData where
  cik : RStr
  series : List Series
  deriving DecidableEq, Repr

/-- Mutable locals of `TargetData::from_parts`. -/
structure TargetData.State where
  series : List Series := []
  cik : Option RStr := none
  deriving DecidableEq, Repr

/-- One iteration of the `TargetData::from_parts` scan loop. -/
def TargetData.stepChild (st : TargetData.State) (part : Tree.DocumentTree) :
    Except PError TargetData.State :=
  match part with
  | .ValueNode .Cik value =>
    if st.cik.isSome then .error (.panicked "assertion failed")
    else .ok {st with cik := some value}
  | .ContainerNode .Series sub => do
    let s ← Series.from_parts sub
    .ok {st with series := st.series ++ [s]}
  | _ => .error (.panicked "Unexpected part")

/-- Finalization of `TargetData::from_parts` (`cik` mandatory). -/
def TargetData.finalize (st : TargetData.State) : Except PError TargetData :=
  match st.cik with
  | some c => .ok ⟨c, st.series⟩
  | none => .error (.panicked "unwrap on None")

/-- The scan loop of `TargetData::from_parts`. -/
def TargetData.go : TargetData.State → List Tree.DocumentTree →
    Except PError TargetData
  | st, [] => TargetData.finalize st
  | st, p :: rest => do
    let st' ← TargetData.stepChild st p
    TargetData.go st' rest

/-- Embedding of `TargetData::from_parts` (`schema.rs`). -/
def TargetData.from_parts (parts : List Tree.DocumentTree) :
    Except PError TargetData :=
  TargetData.go {} parts

/-- Mergers (`schema.rs`, `Merger`, newer generation: repeated target
data). -/
structure Merger where
  acquiring_data : AcquiringData
  target_data : List TargetData
  deriving DecidableEq, Repr

/-- Mutable locals of `Merger::from_parts`. -/
structure Merger.State where
  acquiring_data : Option AcquiringData := none
  target_data : List TargetData := []
  deriving DecidableEq, Repr

/-- One iteration of the `Merger::from_parts` scan loop. -/
def Merger.stepChild (st : Merger.State) (part : Tree.DocumentTree) :
    Except PError Merger.State :=
  match part with
  | .ContainerNode tag sub =>
    match tag with
    | .AcquiringData =>
      if st.acquiring_data.isSome then .error (.panicked "assertion failed")
      else do
        let a ← AcquiringData.from_parts sub
        .ok {st with acquiring_data := some a}
    | .TargetData => do
      let t ← TargetData.from_parts sub
      .ok {st with target_data := st.target_data ++ [t]}
    | _ => .error (.panicked "Unexpected part")
  | _ => .error (.panicked "Unexpected part")

/-- Finalization of `Merger::from_parts` (`acquiring_data` mandatory). -/
def Merger.finalize (st : Merger.State) : Except PError Merger :=
  match st.acquiring_data with
  | some a => .ok ⟨a, st.target_data⟩
  | none => .error (.panicked "unwrap on None")

/-- The scan loop of `Merger::from_parts`. -/
def Merger.go : Merger.State → List Tree.DocumentTree → Except PError Merger
  | st, [] => Merger.finalize st
  | st, p :: rest => do
    let st' ← Merger.stepChild st p
    Merger.go st' rest

/-- Embedding of `Merger::from_parts` (`schema.rs`). -/
def Merger.from_parts (parts : List Tree.DocumentTree) : Except PError Merger :=
  Merger.go {} parts

/-- New series and class contracts (`schema.rs`,
`NewSeriesAndClassesContracts`). -/
structure NewSeriesAndClassesContracts where
  owner_cik : Option RStr
  new_series : List Series
  new_classes_contract : List Series
  deriving DecidableEq, Repr

/-- Mutable locals of `NewSeriesAndClassesContracts::from_parts`. -/
structure NewSeriesAndClassesContracts.State where
  new_series : List Series := []
  new_classes_contract : List Series := []
  owner_cik : Option RStr := none
  deriving DecidableEq, Repr

/-- One iteration of the `NewSeriesAndClassesContracts::from_parts` scan
loop. -/
def NewSeriesAndClassesContracts.stepChild (st : NewSeriesAndClassesContracts.State)
    (part : Tree.DocumentTree) : Except PError NewSeriesAndClassesContracts.State :=
  match part with
  | .ValueNode .OwnerCik value =>
    if st.owner_cik.isSome then .error (.panicked "assertion failed")
    else .ok {st with owner_cik := some value}
  | .ContainerNode tag sub =>
    match tag with
    | .NewSeries => do
      let s ← Series.from_parts sub
      .ok {st with new_series := st.new_series ++ [s]}
    | .NewClassesContracts => do
      let s ← Series.from_parts sub
      .ok {st with new_classes_contract := st.new_classes_contract ++ [s]}
    | _ => .error (.panicked "unimplemented")
  | _ => .error (.panicked "Unexpected part")

/-- The scan loop of `NewSeriesAndClassesContracts::from_parts`. -/
def NewSeriesAndClassesContracts.go : NewSeriesAndClassesContracts.State →
    List Tree.DocumentTree → Except PError NewSeriesAndClassesContracts
  | st, [] => .ok ⟨st.owner_cik, st.new_series, st.new_classes_contract⟩
  | st, p :: rest => do
    let st' ← NewSeriesAndClassesContracts.stepChild st p
    NewSeriesAndClassesContracts.go st' rest

/-- Embedding of `NewSeriesAndClassesContracts::from_parts` (`schema.rs`). -/
def NewSeriesAndClassesContracts.from_parts (parts : List Tree.DocumentTree) :
    Except PError NewSeriesAndClassesContracts :=
  NewSeriesAndClassesContracts.go {} parts

/-- Existing series and class contracts (`schema.rs`,
`SeriesAndClassesContracts`). -/
structure SeriesAndClassesContracts where
  series : List Series
  deriving DecidableEq, Repr

/-- The scan loop of `SeriesAndClassesContracts::from_parts`: repeated
`SERIES` containers only. -/
def SeriesAndClassesContracts.go : List Series → List Tree.DocumentTree →
    Except PError SeriesAndClassesContracts
  | acc, [] => .ok ⟨acc⟩
  | acc, p :: rest =>
    match p with
    | .ContainerNode tag sub =>
      match tag with
      | .Series => do
        let s ← Series.from_parts sub
        SeriesAndClassesContracts.go (acc ++ [s]) rest
      | _ => .error (.panicked "unimplemented")
    | _ => .error (.panicked "Unexpected part")

/-- Embedding of `SeriesAndClassesContracts::from_parts` (`schema.rs`). -/
def SeriesAndClassesContracts.from_parts (parts : List Tree.DocumentTree) :
    Except PError SeriesAndClassesContracts :=
  SeriesAndClassesContracts.go [] parts

/-- Merger series and class contracts (`schema.rs`,
`MergerSeriesAndClassContracts`). -/
structure MergerSeriesAndClassContracts where
  mergers : List Merger
  deriving DecidableEq, Repr

/-- The scan loop of `MergerSeriesAndClassContracts::from_parts`: repeated
`MERGER` containers only. -/
def MergerSeriesAndClassContracts.go : List Merger → List Tree.DocumentTree →
    Except PError MergerSeriesAndClassContracts
  | acc, [] => .ok ⟨acc⟩
  | acc, p :: rest =>
    match p with
    | .ContainerNode tag sub =>
      match tag with
      | .Merger => do
        let m ← Merger.from_parts sub
        MergerSeriesAndClassContracts.go (acc ++ [m]) rest
      | _ => .error (.panicked "unimplemented")
    | _ => .error (.panicked "Unexpected part")

/-- Embedding of `MergerSeriesAndClassContracts::from_parts` (`schema.rs`). -/
def MergerSeriesAndClassContracts.from_parts (parts : List Tree.DocumentTree) :
    Except PError MergerSeriesAndClassContracts :=
  MergerSeriesAndClassContracts.go [] parts

/-- Series and classes contracts data (`schema.rs`,
`SeriesAndClassesContractsData`, newer generation with the new-series
variant). -/
structure SeriesAndClassesContractsData where
  existing_series_and_classes_contracts : Option SeriesAndClassesContracts
  merger_series_and_classes_contracts : Option MergerSeriesAndClassContracts
  new_series_and_classes_contracts : Option NewSeriesAndClassesContracts
  deriving DecidableEq, Repr

/-- One iteration of the `SeriesAndClassesContractsData::from_parts` scan
loop (the state and the record coincide: every field is optional). -/
def SeriesAndClassesContractsData.stepChild (st : SeriesAndClassesContractsData)
    (part : Tree.DocumentTree) : Except PError SeriesAndClassesContractsData :=
  match part with
  | .ContainerNode tag sub =>
    match tag with
    | .ExistingSeriesAndClassesContracts =>
      if st.existing_series_and_classes_contracts.isSome then
        .error (.panicked "assertion failed")
      else do
        let e ← SeriesAndClassesContracts.from_parts sub
        .ok {st with existing_series_and_classes_contracts := some e}
    | .MergerSeriesAndClassesContracts =>
      if st.merger_series_and_classes_contracts.isSome then
        .error (.panicked "assertion failed")
      else do
        let m ← MergerSeriesAndClassContracts.from_parts sub
        .ok {st with merger_series_and_classes_contracts := some m}
    | .NewSeriesAndClassesContracts =>
      if st.new_series_and_classes_contracts.isSome then
        .error (.panicked "assertion failed")
      else do
        let n ← NewSeriesAndClassesContracts.from_parts sub
        .ok {st with new_series_and_classes_contracts := some n}
    | _ => .error (.panicked "unimplemented")
  | _ => .error (.panicked "Unexpected part")

/-- The scan loop of `SeriesAndClassesContractsData::from_parts`. -/
def SeriesAndClassesContractsData.go : SeriesAndClassesContractsData →
    List Tree.DocumentTree → Except PError SeriesAndClassesContractsData
  | st, [] => .ok st
  | st, p :: rest => do
    let st' ← SeriesAndClassesContractsData.stepChild st p
    SeriesAndClassesContractsData.go st' rest

/-- Embedding of `SeriesAndClassesContractsData::from_parts` (`schema.rs`). -/
def SeriesAndClassesContractsData.from_parts (parts : List Tree.DocumentTree) :
    Except PError SeriesAndClassesContractsData :=
  SeriesAndClassesContractsData.go ⟨none, none, none⟩ parts

/-- The root record (`schema.rs`, `Submission`, newer generation: mandatory
accession number, type and filing date; `paper`, `confirming_copy`,
`private_to_public`, `deletion` and `correction` are plain flags). -/
structure Submission where
  accession_number : RStr
  filing_type : RStr
  items : List RStr
  filing_date : NaiveDate
  date_of_filing_date_change : Option NaiveDate
  effectiveness_date : Option NaiveDate
  period : Option NaiveDate
  filers : List Company
  documents : List Document
  series_and_classes_contracts_data : Option SeriesAndClassesContractsData
  reporting_owners : List Company
  issuer : Option Company
  group_members : List RStr
  subject_company : List Company
  filed_by : Option Company
  reference_462b : Option RStr
  is_filer_a_new_registrant : Option Bool
  is_filer_a_well_known_seasoned_issuer : Option Bool
  filed_pursuant_to_general_instruction_a2 : Option Bool
  is_fund_24f2_eligible : Option Bool
  action_date : Option NaiveDate
  received_date : Option NaiveDate
  ma_i_individual : Option RStr
  abs_rule : Option RStr
  period_start : Option NaiveDate
  no_quarterly_activity : Option Bool
  no_annual_activity : Option Bool
  abs_asset_class : Option RStr
  depositor_cik : Option RStr
  sponsor_cik : Option RStr
  category : Option RStr
  registered_entity : Option Bool
  depositor : Option Company
  securitizer : Option Company
  references_429 : Option RStr
  securitizer_cik : Option RStr
  issuing_entity_cik : Option RStr
  issuing_entity_name : Option RStr
  paper : Bool
  confirming_copy : Bool
  securitizer_file_number : Option RStr
  depositor_file_number : Option RStr
  timestamp : Option NaiveDateTime
  private_to_public : Bool
  filed_for : List Company
  public_reference_acc : Option RStr
  public_rel_date : Option NaiveDate
  deletion : Bool
  correction : Bool
  sros : Option RStr
  previous_accession_number : Option RStr
  deriving DecidableEq, Repr

/-- Mutable locals of `Submission::from_parts` (newer generation). The parsed
`public_document_count` is kept in the state but, unlike in the legacy
decoder, is never compared to the number of parsed documents. -/
structure Submission.State where
  accession_number : Option RStr := none
  filing_type : Option RStr := none
  public_document_count : Nat := 0
  items : List RStr := []
  filing_date : Option NaiveDate := none
  date_of_filing_date_change : Option NaiveDate := none
  effectiveness_date : Option NaiveDate := none
  filers : List Company := []
  documents : List Document := []
  series_and_classes_contracts_data : Option SeriesAndClassesContractsData := none
  period : Option NaiveDate := none
  reporting_owners : List Company := []
  issuer : Option Company := none
  group_members : List RStr := []
  subject_company : List Company := []
  filed_by : Option Company := none
  reference_462b : Option RStr := none
  is_filer_a_new_registrant : Option Bool := none
  is_filer_a_well_known_seasoned_issuer : Option Bool := none
  filed_pursuant_to_general_instruction_a2 : Option Bool := none
  is_fund_24f2_eligible : Option Bool := none
  action_date : Option NaiveDate := none
  received_date : Option NaiveDate := none
  ma_i_individual : Option RStr := none
  abs_rule : Option RStr := none
  period_start : Option NaiveDate := none
  no_quarterly_activity : Option Bool := none
  no_annual_activity : Option Bool := none
  abs_asset_class : Option RStr := none
  depositor_cik : Option RStr := none
  sponsor_cik : Option RStr := none
  category : Option RStr := none
  registered_entity : Option Bool := none
  depositor : Option Company := none
  securitizer : Option Company := none
  references_429 : Option RStr := none
  securitizer_cik : Option RStr := none
  issuing_entity_cik : Option RStr := none
  issuing_entity_name : Option RStr := none
  paper : Bool := false
  confirming_copy : Bool := false
  securitizer_file_number : Option RStr := none
  depositor_file_number : Option RStr := none
  timestamp : Option NaiveDateTime := none
  private_to_public : Bool := false
  filed_for : List Company := []
  public_reference_acc : Option RStr := none
  public_rel_date : Option NaiveDate := none
  deletion : Bool := false
  correction : Bool := false
  sros : Option RStr := none
  previous_accession_number : Option RStr := none
  deriving DecidableEq, Repr

/-- One iteration of the newer `Submission::from_parts` scan loop. Most value
fields are assign-once-with-assert; `ITEMS` and `GROUP-MEMBERS` append;
`PAPER`, `CONFIRMING-COPY`, `PRIVATE-TO-PUBLIC`, `DELETION` and `CORRECTION`
set flags ignoring their value; `SECURITIZER-FILE-NUMBER`,
`DEPOSITOR-FILE-NUMBER`, `TIMESTAMP`, `PUBLIC-REFERENCE-ACC`,
`PUBLIC-REL-DATE`, `SROS`, `PREVIOUS-ACCESSION-NUMBER` and the `FILED-BY`
container assign without any duplicate check. -/
def Submission.stepChild (st : Submission.State) (part : Tree.DocumentTree) :
    Except PError Submission.State :=
  match part with
  | .ValueNode tag value =>
    match tag with
    | .AccessionNumber =>
      if st.accession_number.isSome then .error (.panicked "assertion failed")
      else .ok {st with accession_number := some value}
    | .Type =>
      if st.filing_type.isSome then .error (.panicked "assertion failed")
      else .ok {st with filing_type := some value}
    | .PublicDocumentCount =>
      if st.public_document_count ≠ 0 then .error (.panicked "assertion failed")
      else
        match rustParseNat (2 ^ 64) value with
        | some n => .ok {st with public_document_count := n}
        | none => .error (.panicked "unwrap on Err")
    | .Items => .ok {st with items := st.items ++ [value]}
    | .FilingDate =>
      if st.filing_date.isSome then .error (.panicked "assertion failed")
      else do
        let d ← parse_date value
        .ok {st with filing_date := some d}
    | .DateOfFilingDateChange =>
      if st.date_of_filing_date_change.isSome then .error (.panicked "assertion failed")
      else do
        let d ← parse_date value
        .ok {st with date_of_filing_date_change := some d}
    | .EffectivenessDate =>
      if st.effectiveness_date.isSome then .error (.panicked "assertion failed")
      else do
        let d ← parse_date value
        .ok {st with effectiveness_date := some d}
    | .Period =>
      if st.period.isSome then .error (.panicked "assertion failed")
      else do
        let d ← parse_date value
        .ok {st with period := some d}
    | .GroupMembers => .ok {st with group_members := st.group_members ++ [value]}
    | .Reference462B =>
      if st.reference_462b.isSome then .error (.panicked "assertion failed")
      else .ok {st with reference_462b := some value}
    | .IsFilerANewRegistrant =>
      if st.is_filer_a_new_registrant.isSome then .error (.panicked "assertion failed")
      else do
        let b ← parse_bool value
        .ok {st with is_filer_a_new_registrant := some b}
    | .IsFilerAWellKnownSeasonedIssuer =>
      if st.is_filer_a_well_known_seasoned_issuer.isSome then
        .error (.panicked "assertion failed")
      else do
        let b ← parse_bool value
        .ok {st with is_filer_a_well_known_seasoned_issuer := some b}
    | .FiledPursuantToGeneralInstructionA2 =>
      if st.filed_pursuant_to_general_instruction_a2.isSome then
        .error (.panicked "assertion failed")
      else do
        let b ← parse_bool value
        .ok {st with filed_pursuant_to_general_instruction_a2 := some b}
    | .IsFund24F2Eligible =>
      if st.is_fund_24f2_eligible.isSome then .error (.panicked "assertion failed")
      else do
        let b ← parse_bool value
        .ok {st with is_fund_24f2_eligible := some b}
    | .ActionDate =>
      if st.action_date.isSome then .error (.panicked "assertion failed")
      else do
        let d ← parse_date value
        .ok {st with action_date := some d}
    | .ReceivedDate =>
      if st.received_date.isSome then .error (.panicked "assertion failed")
      else do
        let d ← parse_date value
        .ok {st with received_date := some d}
    | .MaIIndividual =>
      if st.ma_i_individual.isSome then .error (.panicked "assertion failed")
      else .ok {st with ma_i_individual := some value}
    | .AbsRule =>
      if st.abs_rule.isSome then .error (.panicked "assertion failed")
      else .ok {st with abs_rule := some value}
    | .PeriodStart =>
      if st.period_start.isSome then .error (.panicked "assertion failed")
      else do
        let d ← parse_date value
        .ok {st with period_start := some d}
    | .NoQuarterlyActivity =>
      if st.no_quarterly_activity.isSome then .error (.panicked "assertion failed")
      else do
        let b ← parse_bool value
        .ok {st with no_quarterly_activity := some b}
    | .NoAnnualActivity =>
      if st.no_annual_activity.isSome then .error (.panicked "assertion failed")
      else do
        let b ← parse_bool value
        .ok {st with no_annual_activity := some b}
    | .AbsAssetClass =>
      if st.abs_asset_class.isSome then .error (.panicked "assertion failed")
      else .ok {st with abs_asset_class := some value}
    | .DepositorCik =>
      if st.depositor_cik.isSome then .error (.panicked "assertion failed")
      else .ok {st with depositor_cik := some value}
    | .SponsorCik =>
      if st.sponsor_cik.isSome then .error (.panicked "assertion failed")
      else .ok {st with sponsor_cik := some value}
    | .Category =>
      if st.category.isSome then .error (.panicked "assertion failed")
      else .ok {st with category := some value}
    | .RegisteredEntity =>
      if st.registered_entity.isSome then .error (.panicked "assertion failed")
      else do
        let b ← parse_bool value
        .ok {st with registered_entity := some b}
    | .References429 =>
      if st.references_429.isSome then .error (.panicked "assertion failed")
      else .ok {st with references_429 := some value}
    | .SecuritizerCik =>
      if st.securitizer_cik.isSome then .error (.panicked "assertion failed")
      else .ok {st with securitizer_cik := some value}
    | .IssuingEntityCik =>
      if st.issuing_entity_cik.isSome then .error (.panicked "assertion failed")
      else .ok {st with issuing_entity_cik := some value}
    | .IssuingEntityName =>
      if st.issuing_entity_name.isSome then .error (.panicked "assertion failed")
      else .ok {st with issuing_entity_name := some value}
    | .Paper => .ok {st with paper := true}
    | .ConfirmingCopy => .ok {st with confirming_copy := true}
    | .SecuritizerFileNumber => .ok {st with securitizer_file_number := some value}
    | .DepositorFileNumber => .ok {st with depositor_file_number := some value}
    | .Timestamp => do
      let t ← parse_date_time value
      .ok {st with timestamp := some t}
    | .PrivateToPublic => .ok {st with private_to_public := true}
    | .PublicReferenceAcc => .ok {st with public_reference_acc := some value}
    | .PublicRelDate => do
      let d ← parse_date value
      .ok {st with public_rel_date := some d}
    | .Deletion => .ok {st with deletion := true}
    | .Correction => .ok {st with correction := true}
    | .Sros => .ok {st with sros := some value}
    | .PreviousAccessionNumber => .ok {st with previous_accession_number := some value}
    | _ => .error (.panicked "Unexpected part")
  | .ContainerNode tag sub =>
    match tag with
    | .Filer => do
      let c ← Company.from_parts sub
      .ok {st with filers := st.filers ++ [c]}
    | .Document => do
      let d ← Document.from_parts sub
      .ok {st with documents := st.documents ++ [d]}
    | .SeriesAndClassesContractsData =>
      if st.series_and_classes_contracts_data.isSome then
        .error (.panicked "assertion failed")
      else do
        let s ← SeriesAndClassesContractsData.from_parts sub
        .ok {st with series_and_classes_contracts_data := some s}
    | .ReportingOwner => do
      let c ← Company.from_parts sub
      .ok {st with reporting_owners := st.reporting_owners ++ [c]}
    | .Issuer =>
      if st.issuer.isSome then .error (.panicked "assertion failed")
      else do
        let c ← Company.from_parts sub
        .ok {st with issuer := some c}
    | .SubjectCompany => do
      let c ← Company.from_parts sub
      .ok {st with subject_company := st.subject_company ++ [c]}
    | .FiledBy => do
      let c ← Company.from_parts sub
      .ok {st with filed_by := some c}
    | .Depositor =>
      if st.depositor.isSome then .error (.panicked "assertion failed")
      else do
        let c ← Company.from_parts sub
        .ok {st with depositor := some c}
    | .Securitizer =>
      if st.securitizer.isSome then .error (.panicked "assertion failed")
      else do
        let c ← Company.from_parts sub
        .ok {st with securitizer := some c}
    | .FiledFor => do
      let c ← Company.from_parts sub
      .ok {st with filed_for := st.filed_for ++ [c]}
    | _ => .error (.panicked "unimplemented")
  | _ => .error (.panicked "Unexpected part")

/-- Finalization of the newer `Submission::from_parts`: `accession_number`,
`filing_type` and `filing_date` are mandatory; no document-count check is
performed. -/
def Submission.finalize (st : Submission.State) : Except PError Submission :=
  match st.accession_number, st.filing_type, st.filing_date with
  | some an, some ft, some fd =>
    .ok ⟨an, ft, st.items, fd, st.date_of_filing_date_change,
      st.effectiveness_date, st.period, st.filers, st.documents,
      st.series_and_classes_contracts_data, st.reporting_owners, st.issuer,
      st.group_members, st.subject_company, st.filed_by, st.reference_462b,
      st.is_filer_a_new_registrant, st.is_filer_a_well_known_seasoned_issuer,
      st.filed_pursuant_to_general_instruction_a2, st.is_fund_24f2_eligible,
      st.action_date, st.received_date, st.ma_i_individual, st.abs_rule,
      st.period_start, st.no_quarterly_activity, st.no_annual_activity,
      st.abs_asset_class, st.depositor_cik, st.sponsor_cik, st.category,
      st.registered_entity, st.depositor, st.securitizer, st.references_429,
      st.securitizer_cik, st.issuing_entity_cik, st.issuing_entity_name,
      st.paper, st.confirming_copy, st.securitizer_file_number,
      st.depositor_file_number, st.timestamp, st.private_to_public,
      st.filed_for, st.public_reference_acc, st.public_rel_date, st.deletion,
      st.correction, st.sros, st.previous_accession_number⟩
  | _, _, _ => .error (.panicked "unwrap on None")

/-- The scan loop of the newer `Submission::from_parts`. -/
def Submission.go : Submission.State → List Tree.DocumentTree →
    Except PError Submission
  | st, [] => Submission.finalize st
  | st, p :: rest => do
    let st' ← Submission.stepChild st p
    Submission.go st' rest

/-- Embedding of the newer `Submission::from_parts` (`schema.rs`,
`sec-data-parser` crate). -/
def Submission.from_parts (parts : List Tree.DocumentTree) :
    Except PError Submission :=
  Submission.go {} parts

/-- Bind of a successful `Except` computation. -/
@[simp] theorem exceptBind_ok {ε α β : Type} (a : α) (f : α → Except ε β) :
    (Except.ok a >>= f : Except ε β) = f a := rfl

/-- Bind of a failed `Except` computation. -/
@[simp] theorem exceptBind_error {ε α β : Type} (e : ε) (f : α → Except ε β) :
    (Except.error e >>= f : Except ε β) = .error e := rfl

/-- Inversion of a successful `Except` bind. -/
theorem exceptBind_eq_ok {ε α β : Type} {x : Except ε α} {f : α → Except ε β}
    {b : β} : (x >>= f) = .ok b ↔ ∃ a, x = .ok a ∧ f a = .ok b := by
  cases x <;> simp

/-- Whether a generic child is a `COMPANY-DATA` container. -/
def isCompanyDataChild : Tree.DocumentTree → Bool
  | .ContainerNode .CompanyData _ => true
  | _ => false

/-- Whether a generic child is a value node with the given tag. -/
def isValueOf (tag : VTag) : Tree.DocumentTree → Bool
  | .ValueNode t _ => t == tag
  | _ => false

theorem Company.stepChild_cd {st st' : Company.State} {p : Tree.DocumentTree}
    (h : Company.stepChild st p = .ok st') :
    (isCompanyDataChild p = true →
      st.company_data = none ∧ st'.company_data.isSome = true) ∧
    (isCompanyDataChild p = false → st'.company_data = st.company_data) := by
  cases p with
  | ValueNode tag v => simp [Company.stepChild] at h
  | TextNode t => simp [Company.stepChild] at h
  | Empty => simp [Company.stepChild] at h
  | ContainerNode tag sub =>
    cases tag <;> simp only [Company.stepChild] at h <;> try simp at h
    case CompanyData =>
      rcases hcd : st.company_data with - | cd
      · rw [hcd] at h
        simp only [Option.isSome_none, Bool.false_eq_true, if_false,
          exceptBind_eq_ok] at h
        obtain ⟨a, -, h⟩ := h
        simp only [Except.ok.injEq] at h
        subst h
        simp [isCompanyDataChild]
      · rw [hcd] at h
        simp at h
    case FilingValues =>
      rw [exceptBind_eq_ok] at h
      obtain ⟨a, -, h⟩ := h
      simp only [Except.ok.injEq] at h
      subst h
      simp [isCompanyDataChild]
    case BusinessAddress =>
      split at h
      · simp at h
      · rw [exceptBind_eq_ok] at h
        obtain ⟨a, -, h⟩ := h
        simp only [Except.ok.injEq] at h
        subst h
        simp [isCompanyDataChild]
    case MailAddress =>
      split at h
      · simp at h
      · rw [exceptBind_eq_ok] at h
        obtain ⟨a, -, h⟩ := h
        simp only [Except.ok.injEq] at h
        subst h
        simp [isCompanyDataChild]
    case FormerCompany =>
      rw [exceptBind_eq_ok] at h
      obtain ⟨a, -, h⟩ := h
      simp only [Except.ok.injEq] at h
      subst h
      simp [isCompanyDataChild]
    case OwnerData =>
      split at h
      · simp at h
      · rw [exceptBind_eq_ok] at h
        obtain ⟨a, -, h⟩ := h
        simp only [Except.ok.injEq] at h
        subst h
        simp [isCompanyDataChild]
    case FormerName =>
      rw [exceptBind_eq_ok] at h
      obtain ⟨a, -, h⟩ := h
      simp only [Except.ok.injEq] at h
      subst h
      simp [isCompanyDataChild]

theorem CompanyData.stepChild_fields {st st' : CompanyData.State}
    {p : Tree.DocumentTree} (h : CompanyData.stepChild st p = .ok st') :
    (isValueOf .ConformedName p = false → st'.conformed_name = st.conformed_name) ∧
    (isValueOf .Cik p = false → st'.cik = st.cik) := by
  cases p with
  | ContainerNode tag sub => simp [CompanyData.stepChild] at h
  | TextNode t => simp [CompanyData.stepChild] at h
  | Empty => simp [CompanyData.stepChild] at h
  | ValueNode tag v =>
    cases tag <;> simp only [CompanyData.stepChild] at h <;> try simp at h
    case ConformedName =>
      split at h
      · simp at h
      · simp only [Except.ok.injEq] at h
        subst h
        constructor <;> intro hx <;> simp_all [isValueOf]
    case Cik =>
      split at h
      · simp at h
      · simp only [Except.ok.injEq] at h
        subst h
        constructor <;> intro hx <;> simp_all [isValueOf]
    case IrsNumber =>
      split at h
      · simp at h
      · simp only [Except.ok.injEq] at h
        subst h
        constructor <;> intro hx <;> simp_all [isValueOf]
    case StateOfInforporation =>
      split at h
      · simp at h
      · simp only [Except.ok.injEq] at h
        subst h
        constructor <;> intro hx <;> simp_all [isValueOf]
    case FiscalYearEnd =>
      split at h
      · simp at h
      · rw [exceptBind_eq_ok] at h
        obtain ⟨a, -, h⟩ := h
        simp only [Except.ok.injEq] at h
        subst h
        constructor <;> intro hx <;> simp_all [isValueOf]
    case AssignedSic =>
      split at h
      · simp at h
      · simp only [Except.ok.injEq] at h
        subst h
        constructor <;> intro hx <;> simp_all [isValueOf]
    case Relationship =>
      split at h
      · simp at h
      · simp only [Except.ok.injEq] at h
        subst h
        constructor <;> intro hx <;> simp_all [isValueOf]

theorem Company.go_cd_count {parts : List Tree.DocumentTree} {st : Company.State}
    {c : Company} (h : Company.go st parts = .ok c) :
    parts.countP isCompanyDataChild +
      (if st.company_data.isSome then 1 else 0) ≤ 1 := by
  induction parts generalizing st with
  | nil => split <;> simp
  | cons p rest ih =>
    rw [Company.go, exceptBind_eq_ok] at h
    obtain ⟨st', hstep, hgo⟩ := h
    have ih' := ih hgo
    obtain ⟨hcd_t, hcd_f⟩ := Company.stepChild_cd hstep
    rw [List.countP_cons]
    by_cases hp : isCompanyDataChild p = true
    · obtain ⟨hnone, hsome⟩ := hcd_t hp
      have h1 : (if isCompanyDataChild p then 1 else 0) = 1 := by simp [hp]
      have h2 : (if st.company_data.isSome then 1 else 0) = 0 := by
        rw [hnone]; simp
      have h3 : (if st'.company_data.isSome then 1 else 0) = 1 := by
        rw [hsome]; simp
      rw [h1, h2]
      rw [h3] at ih'
      omega
    · have hf := hcd_f (by simpa using hp)
      have h1 : (if isCompanyDataChild p then 1 else 0) = 0 := by simp [hp]
      rw [hf] at ih'
      rw [h1]
      omega

theorem CompanyData.finalize_fields {st : CompanyData.State} {d : CompanyData}
    (h : CompanyData.finalize st = .ok d) :
    st.conformed_name.isSome = true ∧ st.cik.isSome = true := by
  unfold CompanyData.finalize at h
  split at h
  · rename_i cn ck heq
    constructor <;> simp_all
  · simp at h

theorem CompanyData.go_mandatory {parts : List Tree.DocumentTree}
    {st : CompanyData.State} {d : CompanyData}
    (h : CompanyData.go st parts = .ok d) :
    (st.conformed_name.isSome = true ∨
      1 ≤ parts.countP (isValueOf .ConformedName)) ∧
    (st.cik.isSome = true ∨ 1 ≤ parts.countP (isValueOf .Cik)) := by
  induction parts generalizing st with
  | nil =>
    have hf := CompanyData.finalize_fields (by simpa [CompanyData.go] using h)
    exact ⟨.inl hf.1, .inl hf.2⟩
  | cons p rest ih =>
    rw [CompanyData.go, exceptBind_eq_ok] at h
    obtain ⟨st', hstep, hgo⟩ := h
    have ih' := ih hgo
    obtain ⟨hcn, hck⟩ := CompanyData.stepChild_fields hstep
    constructor
    · by_cases hp : isValueOf .ConformedName p = true
      · right
        rw [List.countP_cons]
        simp [hp]
      · rcases ih'.1 with hs | hcount
        · left
          rw [← hcn (by simpa using hp)]
          exact hs
        · right
          rw [List.countP_cons]
          omega
    · by_cases hp : isValueOf .Cik p = true
      · right
        rw [List.countP_cons]
        simp [hp]
      · rcases ih'.2 with hs | hcount
        · left
          rw [← hck (by simpa using hp)]
          exact hs
        · right
          rw [List.countP_cons]
          omega

/-- C4 (amended): in the `Company` and `CompanyData` decoders (and the other
assert-guarded decoders) a duplicate assignment of an assign-once field is a
hard error and a missing mandatory field is a hard error at finalize — a
`FILER` with two `COMPANY-DATA` children fails and a `COMPANY-DATA` missing
its mandatory `CONFORMED-NAME` or `CIK` fails; the newer `Submission` decoder,
however, silently overwrites a handful of optional fields (see the
counterexample on `SROS`). -/
theorem cardinality_enforced_company :
    (∀ parts c, Company.from_parts parts = .ok c →
      parts.countP isCompanyDataChild ≤ 1) ∧
    (∀ parts d, CompanyData.from_parts parts = .ok d →
      1 ≤ parts.countP (isValueOf .ConformedName) ∧
      1 ≤ parts.countP (isValueOf .Cik)) ∧
    Company.from_parts
      [.ContainerNode .CompanyData
        [.ValueNode .ConformedName (strOf "A"), .ValueNode .Cik (strOf "1")],
       .ContainerNode .CompanyData
        [.ValueNode .ConformedName (strOf "B"), .ValueNode .Cik (strOf "2")]] =
      .error (.panicked "assertion failed") ∧
    CompanyData.from_parts [.ValueNode .Cik (strOf "1")] =
      .error (.panicked "unwrap on None") ∧
    CompanyData.from_parts [.ValueNode .ConformedName (strOf "X")] =
      .error (.panicked "unwrap on None") := by
  refine ⟨fun parts c h => ?_, fun parts d h => ?_, rfl, rfl, rfl⟩
  · have h' : Company.go {} parts = .ok c := h
    have := Company.go_cd_count h'
    simpa using this
  · have h' : CompanyData.go {} parts = .ok d := h
    obtain ⟨hcn, hck⟩ := CompanyData.go_mandatory h'
    constructor
    · rcases hcn with hs | hc
      · exact absurd hs (by decide)
      · exact hc
    · rcases hck with hs | hc
      · exact absurd hs (by decide)
      · exact hc

/-- Witness for C4 at concrete inputs: a successful one-`COMPANY-DATA` filer
has a company-data count of at most one, and a successful company-data record
contains its mandatory children. -/
theorem cardinality_enforced_company_witness :
    List.countP isCompanyDataChild
      [Tree.DocumentTree.ContainerNode .CompanyData
        [.ValueNode .ConformedName (strOf "A"), .ValueNode .Cik (strOf "1")]] ≤ 1 ∧
    (1 ≤ List.countP (isValueOf .ConformedName)
        [Tree.DocumentTree.ValueNode .ConformedName (strOf "A"),
         .ValueNode .Cik (strOf "1")] ∧
     1 ≤ List.countP (isValueOf .Cik)
        [Tree.DocumentTree.ValueNode .ConformedName (strOf "A"),
         .ValueNode .Cik (strOf "1")]) :=
  ⟨cardinality_enforced_company.1
      [.ContainerNode .CompanyData
        [.ValueNode .ConformedName (strOf "A"), .ValueNode .Cik (strOf "1")]]
      ⟨some ⟨strOf "A", strOf "1", none, none, none, none, none⟩,
        [], none, none, none, [], []⟩ rfl,
   cardinality_enforced_company.2.1
      [.ValueNode .ConformedName (strOf "A"), .ValueNode .Cik (strOf "1")]
      ⟨strOf "A", strOf "1", none, none, none, none, none⟩ rfl⟩

/-- C4 counterexample: the newer `Submission` decoder's `SROS` field (an
at-most-one `Option` field) is silently overwritten by a duplicate `SROS`
child — the parse succeeds and the second value wins, instead of the hard
error the claim requires for every decoder of the family. -/
theorem submission_sros_silent_overwrite :
    (Submission.from_parts
      [.ValueNode .AccessionNumber (strOf "0000000000-00-000000"),
       .ValueNode .Type (strOf "10-K"),
       .ValueNode .FilingDate (strOf "19991231"),
       .ValueNode .Sros (strOf "NYSE"),
       .ValueNode .Sros (strOf "AMEX")]).map (fun s => s.sros) =
      .ok (some (strOf "AMEX")) := rfl

/-- C9: the value tags `FLAWED` (document decoder) and `PAPER`,
`CONFIRMING-COPY`, `PRIVATE-TO-PUBLIC`, `DELETION`, `CORRECTION` (newer
submission decoder) are pure presence flags — any occurrence, for any state
(so repetitions included) and any carried value (which is ignored), sets the
corresponding boolean to `true` and nothing else. -/
theorem flag_tags_presence_semantics :
    (∀ (st : Submission.State) (v : RStr),
      Submission.stepChild st (.ValueNode .Paper v) = .ok {st with paper := true}) ∧
    (∀ (st : Submission.State) (v : RStr),
      Submission.stepChild st (.ValueNode .ConfirmingCopy v) =
        .ok {st with confirming_copy := true}) ∧
    (∀ (st : Submission.State) (v : RStr),
      Submission.stepChild st (.ValueNode .PrivateToPublic v) =
        .ok {st with private_to_public := true}) ∧
    (∀ (st : Submission.State) (v : RStr),
      Submission.stepChild st (.ValueNode .Deletion v) =
        .ok {st with deletion := true}) ∧
    (∀ (st : Submission.State) (v : RStr),
      Submission.stepChild st (.ValueNode .Correction v) =
        .ok {st with correction := true}) ∧
    (∀ (st : Document.State) (v : RStr),
      Document.stepChild st (.ValueNode .Flawed v) = .ok {st with flawed := true}) :=
  ⟨fun _ _ => rfl, fun _ _ => rfl, fun _ _ => rfl, fun _ _ => rfl,
   fun _ _ => rfl, fun _ _ => rfl⟩

namespace Legacy

/-- Filing values (legacy root-crate `schema.rs`, `FilingValues`). -/
structure FilingValues where
  form_type : RStr
  act : Option RStr
  file_number : Option RStr
  film_number : Option RStr

/-- Mutable locals of the legacy `FilingValues::from_parts`. -/
structure FilingValues.State where
  form_type : Option RStr := none
  act : Option RStr := none
  file_number : Option RStr := none
  film_number : Option RStr := none

/-- One iteration of the legacy `FilingValues::from_parts` scan loop
(duplicates are `assert_eq!(None, ..)` failures). -/
def FilingValues.stepChild (st : FilingValues.State) (part : Tree.DocumentTree) :
    Except PError FilingValues.State :=
  match part with
  | .ValueNode tag value =>
    match tag with
    | .FormType =>
      if st.form_type.isSome then .error (.panicked "assertion failed")
      else .ok {st with form_type := some value}
    | .Act =>
      if st.act.isSome then .error (.panicked "assertion failed")
      else .ok {st with act := some value}
    | .FileNumber =>
      if st.file_number.isSome then .error (.panicked "assertion failed")
      else .ok {st with file_number := some value}
    | .FilmNumber =>
      if st.film_number.isSome then .error (.panicked "assertion failed")
      else .ok {st with film_number := some value}
    | _ => .error (.panicked "Unexpected part")
  | _ => .error (.panicked "Unexpected part")

/-- The legacy `FilingValues::from_parts` (`form_type` mandatory). -/
def FilingValues.go : FilingValues.State → List Tree.DocumentTree →
    Except PError FilingValues
  | st, [] =>
    match st.form_type with
    | none => .error (.panicked "unwrap on None")
    | some ft => .ok ⟨ft, st.act, st.file_number, st.film_number⟩
  | st, p :: rest => do
    let st' ← FilingValues.stepChild st p
    FilingValues.go st' rest

/-- Embedding of the legacy `FilingValues::from_parts`. -/
def FilingValues.from_parts (parts : List Tree.DocumentTree) :
    Except PError FilingValues :=
  FilingValues.go {} parts

/-- Company data (legacy `schema.rs`, `CompanyData`; no `relationship`). -/
structure CompanyData where
  conformed_name : RStr
  cik : RStr
  irs_number : Option RStr
  state_of_incorporation : Option RStr
  fiscal_year_end : Option MonthDayPair
  assigned_sic : Option RStr

/-- Mutable locals of the legacy `CompanyData::from_parts`. -/
structure CompanyData.State where
  conformed_name : Option RStr := none
  cik : Option RStr := none
  irs_number : Option RStr := none
  state_of_incorporation : Option RStr := none
  fiscal_year_end : Option MonthDayPair := none
  assigned_sic : Option RStr := none

/-- One iteration of the legacy `CompanyData::from_parts` scan loop. -/
def CompanyData.stepChild (st : CompanyData.State) (part : Tree.DocumentTree) :
    Except PError CompanyData.State :=
  match part with
  | .ValueNode tag value =>
    match tag with
    | .ConformedName =>
      if st.conformed_name.isSome then .error (.panicked "assertion failed")
      else .ok {st with conformed_name := some value}
    | .Cik =>
      if st.cik.isSome then .error (.panicked "assertion failed")
      else .ok {st with cik := some value}
    | .IrsNumber =>
      if st.irs_number.isSome then .error (.panicked "assertion failed")
      else .ok {st with irs_number := some value}
    | .StateOfInforporation =>
      if st.state_of_incorporation.isSome then .error (.panicked "assertion failed")
      else .ok {st with state_of_incorporation := some value}
    | .FiscalYearEnd =>
      if st.fiscal_year_end.isSome then .error (.panicked "assertion failed")
      else do
        let fy ← MonthDayPair.parse value
        .ok {st with fiscal_year_end := some fy}
    | .AssignedSic =>
      if st.assigned_sic.isSome then .error (.panicked "assertion failed")
      else .ok {st with assigned_sic := some value}
    | _ => .error (.panicked "Unexpected part")
  | _ => .error (.panicked "Unexpected part")

/-- The legacy `CompanyData::from_parts` (`conformed_name`, `cik`
mandatory). -/
def CompanyData.go : CompanyData.State → List Tree.DocumentTree →
    Except PError CompanyData
  | st, [] =>
    match st.conformed_name, st.cik with
    | some cn, some ck =>
      .ok ⟨cn, ck, st.irs_number, st.state_of_incorporation,
        st.fiscal_year_end, st.assigned_sic⟩
    | _, _ => .error (.panicked "unwrap on None")
  | st, p :: rest => do
    let st' ← CompanyData.stepChild st p
    CompanyData.go st' rest

/-- Embedding of the legacy `CompanyData::from_parts`. -/
def CompanyData.from_parts (parts : List Tree.DocumentTree) :
    Except PError CompanyData :=
  CompanyData.go {} parts

/-- Addresses (legacy `schema.rs`, `Address`; all fields optional). -/
structure Address where
  street1 : Option RStr
  street2 : Option RStr
  city : Option RStr
  state : Option RStr
  zip : Option RStr
  phone : Option RStr

/-- One iteration of the legacy `Address::from_parts` scan loop. -/
def Address.stepChild (st : Address) (part : Tree.DocumentTree) :
    Except PError Address :=
  match part with
  | .ValueNode tag value =>
    match tag with
    | .Street1 =>
      if st.street1.isSome then .error (.panicked "assertion failed")
      else .ok {st with street1 := some value}
    | .Street2 =>
      if st.street2.isSome then .error (.panicked "assertion failed")
      else .ok {st with street2 := some value}
    | .City =>
      if st.city.isSome then .error (.panicked "assertion failed")
      else .ok {st with city := some value}
    | .State =>
      if st.state.isSome then .error (.panicked "assertion failed")
      else .ok {st with state := some value}
    | .Zip =>
      if st.zip.isSome then .error (.panicked "assertion failed")
      else .ok {st with zip := some value}
    | .Phone =>
      if st.phone.isSome then .error (.panicked "assertion failed")
      else .ok {st with phone := some value}
    | _ => .error (.panicked "Unexpected part")
  | _ => .error (.panicked "Unexpected part")

/-- The legacy `Address::from_parts` scan loop. -/
def Address.go : Address → List Tree.DocumentTree → Except PError Address
  | st, [] => .ok st
  | st, p :: rest => do
    let st' ← Address.stepChild st p
    Address.go st' rest

/-- Embedding of the legacy `Address::from_parts`. -/
def Address.from_parts (parts : List Tree.DocumentTree) : Except PError Address :=
  Address.go ⟨none, none, none, none, none, none⟩ parts

/-- Former names (legacy `schema.rs`, `FormerCompany`). -/
structure FormerCompany where
  former_conformed_name : RStr
  date_changed : NaiveDate

/-- Mutable locals of the legacy `FormerCompany::from_parts`. -/
structure FormerCompany.State where
  former_conformed_name : Option RStr := none
  date_changed : Option NaiveDate := none

/-- One iteration of the legacy `FormerCompany::from_parts` scan loop. -/
def FormerCompany.stepChild (st : FormerCompany.State) (part : Tree.DocumentTree) :
    Except PError FormerCompany.State :=
  match part with
  | .ValueNode tag value =>
    match tag with
    | .FormerConformedName =>
      if st.former_conformed_name.isSome then .error (.panicked "assertion failed")
      else .ok {st with former_conformed_name := some value}
    | .DateChanged =>
      if st.date_changed.isSome then .error (.panicked "assertion failed")
      else do
        let d ← parse_date value
        .ok {st with date_changed := some d}
    | _ => .error (.panicked "Unexpected part")
  | _ => .error (.panicked "Unexpected part")

/-- The legacy `FormerCompany::from_parts` (both fields mandatory). -/
def FormerCompany.go : FormerCompany.State → List Tree.DocumentTree →
    Except PError FormerCompany
  | st, [] =>
    match st.former_conformed_name, st.date_changed with
    | some n, some d => .ok ⟨n, d⟩
    | _, _ => .error (.panicked "unwrap on None")
  | st, p :: rest => do
    let st' ← FormerCompany.stepChild st p
    FormerCompany.go st' rest

/-- Embedding of the legacy `FormerCompany::from_parts`. -/
def FormerCompany.from_parts (parts : List Tree.DocumentTree) :
    Except PError FormerCompany :=
  FormerCompany.go {} parts

end Legacy

namespace Legacy

/-- Filer entities (legacy `schema.rs`, `Filer`: `filing_values` is an
assign-once optional, unlike the newer repeated field). -/
structure Filer where
  company_data : Option CompanyData
  filing_values : Option FilingValues
  business_address : Option Address
  mail_address : Option Address
  owner_data : Option CompanyData
  former_name : List FormerCompany
  former_company : List FormerCompany

/-- Mutable locals of the legacy `Filer::from_parts`. -/
structure Filer.State where
  company_data : Option CompanyData := none
  filing_values : Option FilingValues := none
  business_address : Option Address := none
  mail_address : Option Address := none
  owner_data : Option CompanyData := none
  former_name : List FormerCompany := []
  former_company : List FormerCompany := []

/-- One iteration of the legacy `Filer::from_parts` scan loop (container
children only; any value child panics). -/
def Filer.stepChild (st : Filer.State) (part : Tree.DocumentTree) :
    Except PError Filer.State :=
  match part with
  | .ContainerNode tag sub =>
    match tag with
    | .CompanyData =>
      if st.company_data.isSome then .error (.panicked "assertion failed")
      else do
        let cd ← CompanyData.from_parts sub
        .ok {st with company_data := some cd}
    | .FilingValues =>
      if st.filing_values.isSome then .error (.panicked "assertion failed")
      else do
        let fv ← FilingValues.from_parts sub
        .ok {st with filing_values := some fv}
    | .BusinessAddress =>
      if st.business_address.isSome then .error (.panicked "assertion failed")
      else do
        let a ← Address.from_parts sub
        .ok {st with business_address := some a}
    | .MailAddress =>
      if st.mail_address.isSome then .error (.panicked "assertion failed")
      else do
        let a ← Address.from_parts sub
        .ok {st with mail_address := some a}
    | .FormerCompany => do
      let fc ← FormerCompany.from_parts sub
      .ok {st with former_company := st.former_company ++ [fc]}
    | .OwnerData =>
      if st.owner_data.isSome then .error (.panicked "assertion failed")
      else do
        let od ← CompanyData.from_parts sub
        .ok {st with owner_data := some od}
    | .FormerName => do
      let fn ← FormerCompany.from_parts sub
      .ok {st with former_name := st.former_name ++ [fn]}
    | _ => .error (.panicked "unimplemented")
  | _ => .error (.panicked "Unexpected part")

/-- The legacy `Filer::from_parts` scan loop. -/
def Filer.go : Filer.State → List Tree.DocumentTree → Except PError Filer
  | st, [] => .ok ⟨st.company_data, st.filing_values, st.business_address,
      st.mail_address, st.owner_data, st.former_name, st.former_company⟩
  | st, p :: rest => do
    let st' ← Filer.stepChild st p
    Filer.go st' rest

/-- Embedding of the legacy `Filer::from_parts`. -/
def Filer.from_parts (parts : List Tree.DocumentTree) : Except PError Filer :=
  Filer.go {} parts

/-- Documents (legacy `schema.rs`, `Document`: mandatory filename and raw
text body, no `flawed` flag, no typed body). -/
structure Document where
  doc_type : RStr
  sequence : Nat
  filename : RStr
  text : RStr
  description : Option RStr

/-- Mutable locals of the legacy `Document::from_parts`. -/
structure Document.State where
  doc_type : Option RStr := none
  sequence : Option Nat := none
  filename : Option RStr := none
  text : Option RStr := none
  description : Option RStr := none

/-- One iteration of the legacy `Document::from_parts` scan loop (a text
child assigns the raw body, without a duplicate check). -/
def Document.stepChild (st : Document.State) (part : Tree.DocumentTree) :
    Except PError Document.State :=
  match part with
  | .ValueNode tag value =>
    match tag with
    | .Type =>
      if st.doc_type.isSome then .error (.panicked "assertion failed")
      else .ok {st with doc_type := some value}
    | .Sequence =>
      if st.sequence.isSome then .error (.panicked "assertion failed")
      else
        match rustParseNat (2 ^ 32) value with
        | some n => .ok {st with sequence := some n}
        | none => .error (.panicked "unwrap on Err")
    | .Filename =>
      if st.filename.isSome then .error (.panicked "assertion failed")
      else .ok {st with filename := some value}
    | .Description =>
      if st.description.isSome then .error (.panicked "assertion failed")
      else .ok {st with description := some value}
    | _ => .error (.panicked "Unexpected part")
  | .TextNode t => .ok {st with text := some t}
  | _ => .error (.panicked "Unexpected part")

/-- The legacy `Document::from_parts` (`doc_type`, `sequence`, `filename` and
`text` are all mandatory). -/
def Document.go : Document.State → List Tree.DocumentTree → Except PError Document
  | st, [] =>
    match st.doc_type, st.sequence, st.filename, st.text with
    | some t, some s, some f, some x => .ok ⟨t, s, f, x, st.description⟩
    | _, _, _, _ => .error (.panicked "unwrap on None")
  | st, p :: rest => do
    let st' ← Document.stepChild st p
    Document.go st' rest

/-- Embedding of the legacy `Document::from_parts`. -/
def Document.from_parts (parts : List Tree.DocumentTree) : Except PError Document :=
  Document.go {} parts

/-- Class contracts (legacy `schema.rs`, `ClassContract`). -/
structure ClassContract where
  class_contract_id : RStr
  class_contract_name : RStr
  class_contract_ticker_symbol : Option RStr

/-- Mutable locals of the legacy `ClassContract::from_parts`. -/
structure ClassContract.State where
  class_contract_id : Option RStr := none
  class_contract_name : Option RStr := none
  class_contract_ticker_symbol : Option RStr := none

/-- One iteration of the legacy `ClassContract::from_parts` scan loop. -/
def ClassContract.stepChild (st : ClassContract.State) (part : Tree.DocumentTree) :
    Except PError ClassContract.State :=
  match part with
  | .ValueNode tag value =>
    match tag with
    | .ClassContractId =>
      if st.class_contract_id.isSome then .error (.panicked "assertion failed")
      else .ok {st with class_contract_id := some value}
    | .ClassContractName =>
      if st.class_contract_name.isSome then .error (.panicked "assertion failed")
      else .ok {st with class_contract_name := some value}
    | .ClassContractTickerSymbol =>
      if st.class_contract_ticker_symbol.isSome then
        .error (.panicked "assertion failed")
      else .ok {st with class_contract_ticker_symbol := some value}
    | _ => .error (.panicked "Unexpected part")
  | _ => .error (.panicked "Unexpected part")

/-- The legacy `ClassContract::from_parts` (id and name mandatory). -/
def ClassContract.go : ClassContract.State → List Tree.DocumentTree →
    Except PError ClassContract
  | st, [] =>
    match st.class_contract_id, st.class_contract_name with
    | some i, some n => .ok ⟨i, n, st.class_contract_ticker_symbol⟩
    | _, _ => .error (.panicked "unwrap on None")
  | st, p :: rest => do
    let st' ← ClassContract.stepChild st p
    ClassContract.go st' rest

/-- Embedding of the legacy `ClassContract::from_parts`. -/
def ClassContract.from_parts (parts : List Tree.DocumentTree) :
    Except PError ClassContract :=
  ClassContract.go {} parts

/-- Fund series (legacy `schema.rs`, `Series`). -/
structure Series where
  owner_cik : Option RStr
  series_id : RStr
  series_name : RStr
  class_contracts : List ClassContract

/-- Mutable locals of the legacy `Series::from_parts`. -/
structure Series.State where
  owner_cik : Option RStr := none
  series_id : Option RStr := none
  series_name : Option RStr := none
  class_contracts : List ClassContract := []

/-- One iteration of the legacy `Series::from_parts` scan loop. -/
def Series.stepChild (st : Series.State) (part : Tree.DocumentTree) :
    Except PError Series.State :=
  match part with
  | .ValueNode tag value =>
    match tag with
    | .OwnerCik =>
      if st.owner_cik.isSome then .error (.panicked "assertion failed")
      else .ok {st with owner_cik := some value}
    | .SeriesId =>
      if st.series_id.isSome then .error (.panicked "assertion failed")
      else .ok {st with series_id := some value}
    | .SeriesName =>
      if st.series_name.isSome then .error (.panicked "assertion failed")
      else .ok {st with series_name := some value}
    | _ => .error (.panicked "Unexpected part")
  | .ContainerNode tag sub =>
    match tag with
    | .ClassContract => do
      let cc ← ClassContract.from_parts sub
      .ok {st with class_contracts := st.class_contracts ++ [cc]}
    | _ => .error (.panicked "unimplemented")
  | _ => .error (.panicked "Unexpected part")

/-- The legacy `Series::from_parts` (id and name mandatory). -/
def Series.go : Series.State → List Tree.DocumentTree → Except PError Series
  | st, [] =>
    match st.series_id, st.series_name with
    | some i, some n => .ok ⟨st.owner_cik, i, n, st.class_contracts⟩
    | _, _ => .error (.panicked "unwrap on None")
  | st, p :: rest => do
    let st' ← Series.stepChild st p
    Series.go st' rest

/-- Embedding of the legacy `Series::from_parts`. -/
def Series.from_parts (parts : List Tree.DocumentTree) : Except PError Series :=
  Series.go {} parts

/-- A series with its owning CIK (legacy `schema.rs`, `SeriesAndCik`). -/
structure SeriesAndCik where
  cik : RStr
  series : Series

/-- Mutable locals of the legacy `SeriesAndCik::from_parts`. -/
structure SeriesAndCik.State where
  series : Option Series := none
  cik : Option RStr := none

/-- One iteration of the legacy `SeriesAndCik::from_parts` scan loop. -/
def SeriesAndCik.stepChild (st : SeriesAndCik.State) (part : Tree.DocumentTree) :
    Except PError SeriesAndCik.State :=
  match part with
  | .ValueNode tag value =>
    match tag with
    | .Cik =>
      if st.cik.isSome then .error (.panicked "assertion failed")
      else .ok {st with cik := some value}
    | _ => .error (.panicked "Unexpected part")
  | .ContainerNode tag sub =>
    match tag with
    | .Series =>
      if st.series.isSome then .error (.panicked "assertion failed")
      else do
        let s ← Series.from_parts sub
        .ok {st with series := some s}
    | _ => .error (.panicked "Unexpected part")
  | _ => .error (.panicked "Unexpected part")

/-- The legacy `SeriesAndCik::from_parts` (both fields mandatory). -/
def SeriesAndCik.go : SeriesAndCik.State → List Tree.DocumentTree →
    Except PError SeriesAndCik
  | st, [] =>
    match st.series, st.cik with
    | some s, some c => .ok ⟨c, s⟩
    | _, _ => .error (.panicked "unwrap on None")
  | st, p :: rest => do
    let st' ← SeriesAndCik.stepChild st p
    SeriesAndCik.go st' rest

/-- Embedding of the legacy `SeriesAndCik::from_parts`. -/
def SeriesAndCik.from_parts (parts : List Tree.DocumentTree) :
    Except PError SeriesAndCik :=
  SeriesAndCik.go {} parts

/-- Mergers (legacy `schema.rs`, `Merger`: a single acquiring and a single
target `SeriesAndCik`, both mandatory). -/
structure Merger where
  acquiring_data : SeriesAndCik
  target_data : SeriesAndCik

/-- Mutable locals of the legacy `Merger::from_parts`. -/
structure Merger.State where
  acquiring_data : Option SeriesAndCik := none
  target_data : Option SeriesAndCik := none

/-- One iteration of the legacy `Merger::from_parts` scan loop. -/
def Merger.stepChild (st : Merger.State) (part : Tree.DocumentTree) :
    Except PError Merger.State :=
  match part with
  | .ContainerNode tag sub =>
    match tag with
    | .AcquiringData =>
      if st.acquiring_data.isSome then .error (.panicked "assertion failed")
      else do
        let a ← SeriesAndCik.from_parts sub
        .ok {st with acquiring_data := some a}
    | .TargetData =>
      if st.target_data.isSome then .error (.panicked "assertion failed")
      else do
        let t ← SeriesAndCik.from_parts sub
        .ok {st with target_data := some t}
    | _ => .error (.panicked "Unexpected part")
  | _ => .error (.panicked "Unexpected part")

/-- The legacy `Merger::from_parts` (both fields mandatory). -/
def Merger.go : Merger.State → List Tree.DocumentTree → Except PError Merger
  | st, [] =>
    match st.acquiring_data, st.target_data with
    | some a, some t => .ok ⟨a, t⟩
    | _, _ => .error (.panicked "unwrap on None")
  | st, p :: rest => do
    let st' ← Merger.stepChild st p
    Merger.go st' rest

/-- Embedding of the legacy `Merger::from_parts`. -/
def Merger.from_parts (parts : List Tree.DocumentTree) : Except PError Merger :=
  Merger.go {} parts

/-- Existing series and class contracts (legacy `schema.rs`). -/
structure SeriesAndClassesContracts where
  series : List Series

/-- The legacy `SeriesAndClassesContracts::from_parts` scan loop. -/
def SeriesAndClassesContracts.go : List Series → List Tree.DocumentTree →
    Except PError SeriesAndClassesContracts
  | acc, [] => .ok ⟨acc⟩
  | acc, p :: rest =>
    match p with
    | .ContainerNode tag sub =>
      match tag with
      | .Series => do
        let s ← Series.from_parts sub
        SeriesAndClassesContracts.go (acc ++ [s]) rest
      | _ => .error (.panicked "unimplemented")
    | _ => .error (.panicked "Unexpected part")

/-- Embedding of the legacy `SeriesAndClassesContracts::from_parts`. -/
def SeriesAndClassesContracts.from_parts (parts : List Tree.DocumentTree) :
    Except PError SeriesAndClassesContracts :=
  SeriesAndClassesContracts.go [] parts

/-- Merger series and class contracts (legacy `schema.rs`). -/
structure MergerSeriesAndClassContracts where
  mergers : List Merger

/-- The legacy `MergerSeriesAndClassContracts::from_parts` scan loop. -/
def MergerSeriesAndClassContracts.go : List Merger → List Tree.DocumentTree →
    Except PError MergerSeriesAndClassContracts
  | acc, [] => .ok ⟨acc⟩
  | acc, p :: rest =>
    match p with
    | .ContainerNode tag sub =>
      match tag with
      | .Merger => do
        let m ← Merger.from_parts sub
        MergerSeriesAndClassContracts.go (acc ++ [m]) rest
      | _ => .error (.panicked "unimplemented")
    | _ => .error (.panicked "Unexpected part")

/-- Embedding of the legacy `MergerSeriesAndClassContracts::from_parts`. -/
def MergerSeriesAndClassContracts.from_parts (parts : List Tree.DocumentTree) :
    Except PError MergerSeriesAndClassContracts :=
  MergerSeriesAndClassContracts.go [] parts

/-- Series and classes contracts data (legacy `schema.rs`: existing and
merger variants only). -/
structure SeriesAndClassesContractsData where
  existing_series_and_classes_contracts : Option SeriesAndClassesContracts
  merger_series_and_classes_contracts : Option MergerSeriesAndClassContracts

/-- One iteration of the legacy `SeriesAndClassesContractsData::from_parts`
scan loop. -/
def SeriesAndClassesContractsData.stepChild (st : SeriesAndClassesContractsData)
    (part : Tree.DocumentTree) : Except PError SeriesAndClassesContractsData :=
  match part with
  | .ContainerNode tag sub =>
    match tag with
    | .ExistingSeriesAndClassesContracts =>
      if st.existing_series_and_classes_contracts.isSome then
        .error (.panicked "assertion failed")
      else do
        let e ← SeriesAndClassesContracts.from_parts sub
        .ok {st with existing_series_and_classes_contracts := some e}
    | .MergerSeriesAndClassesContracts =>
      if st.merger_series_and_classes_contracts.isSome then
        .error (.panicked "assertion failed")
      else do
        let m ← MergerSeriesAndClassContracts.from_parts sub
        .ok {st with merger_series_and_classes_contracts := some m}
    | _ => .error (.panicked "unimplemented")
  | _ => .error (.panicked "Unexpected part")

/-- The legacy `SeriesAndClassesContractsData::from_parts` scan loop. -/
def SeriesAndClassesContractsData.go : SeriesAndClassesContractsData →
    List Tree.DocumentTree → Except PError SeriesAndClassesContractsData
  | st, [] => .ok st
  | st, p :: rest => do
    let st' ← SeriesAndClassesContractsData.stepChild st p
    SeriesAndClassesContractsData.go st' rest

/-- Embedding of the legacy `SeriesAndClassesContractsData::from_parts`. -/
def SeriesAndClassesContractsData.from_parts (parts : List Tree.DocumentTree) :
    Except PError SeriesAndClassesContractsData :=
  SeriesAndClassesContractsData.go ⟨none, none⟩ parts

end Legacy

namespace Tree

mutual

/-- A computable structural fuel measure for one tree. -/
def treeFuel : DocumentTree → Nat
  | .ContainerNode _ parts => 1 + forestFuel parts
  | .ValueNode _ _ => 1
  | .TextNode _ => 1
  | .Empty => 1

/-- A computable structural fuel measure for a forest; it strictly dominates
the length of any recursion chain of a scan over the forest. -/
def forestFuel : List DocumentTree → Nat
  | [] => 1
  | t :: rest => 1 + treeFuel t + forestFuel rest

end

end Tree

namespace Legacy

/-- The field record of the legacy root `Submission` (legacy `schema.rs`):
every scalar is optional, and `confirming_copy` is the model's one recursive
construct — an owned, optional, separately-allocated (`Option<Box<..>>` in
the source) self-reference, kept polymorphic here so the recursive knot is
tied by the `Submission` inductive below. -/
structure SubmissionFields (α : Type) where
  accession_number : Option RStr
  filing_type : Option RStr
  items : List RStr
  filing_date : Option NaiveDate
  date_of_filing_date_change : Option NaiveDate
  effectiveness_date : Option NaiveDate
  period : Option NaiveDate
  filers : List Filer
  documents : List Document
  series_and_classes_contracts_data : Option SeriesAndClassesContractsData
  reporting_owners : List Filer
  issuer : Option Filer
  group_members : List RStr
  subject_company : Option Filer
  filed_by : Option Filer
  reference_462b : Option RStr
  is_filer_a_new_registrant : Option Bool
  is_filer_a_well_known_seasoned_issuer : Option Bool
  filed_pursuant_to_general_instruction_a2 : Option Bool
  is_fund_24f2_eligible : Option Bool
  action_date : Option NaiveDate
  received_date : Option NaiveDate
  ma_i_individual : Option RStr
  abs_rule : Option RStr
  period_start : Option NaiveDate
  no_quarterly_activity : Option Bool
  no_annual_activity : Option Bool
  abs_asset_class : Option RStr
  depositor_cik : Option RStr
  sponsor_cik : Option RStr
  confirming_copy : Option α
  category : Option RStr
  registered_entity : Option Bool
  depositor : Option Filer
  securitizer : Option Filer
  references_429 : Option RStr

/-- The legacy root record (`schema.rs`, `Submission`): a recursive value
type whose `confirming_copy` field may hold another complete submission. -/
inductive Submission where
  | mk (fields : SubmissionFields Submission)

/-- Projection to the field record. -/
def Submission.fields : Submission → SubmissionFields Submission
  | .mk f => f

/-- Mutable locals of the legacy `Submission::from_parts`: the field values
accumulated so far plus the declared `public_document_count` (a plain
counter, `0` until the count tag is seen). -/
structure Submission.State where
  accession_number : Option RStr := none
  filing_type : Option RStr := none
  public_document_count : Nat := 0
  items : List RStr := []
  filing_date : Option NaiveDate := none
  date_of_filing_date_change : Option NaiveDate := none
  effectiveness_date : Option NaiveDate := none
  filers : List Filer := []
  documents : List Document := []
  series_and_classes_contracts_data : Option SeriesAndClassesContractsData := none
  period : Option NaiveDate := none
  reporting_owners : List Filer := []
  issuer : Option Filer := none
  group_members : List RStr := []
  subject_company : Option Filer := none
  filed_by : Option Filer := none
  reference_462b : Option RStr := none
  is_filer_a_new_registrant : Option Bool := none
  is_filer_a_well_known_seasoned_issuer : Option Bool := none
  filed_pursuant_to_general_instruction_a2 : Option Bool := none
  is_fund_24f2_eligible : Option Bool := none
  action_date : Option NaiveDate := none
  received_date : Option NaiveDate := none
  ma_i_individual : Option RStr := none
  abs_rule : Option RStr := none
  period_start : Option NaiveDate := none
  no_quarterly_activity : Option Bool := none
  no_annual_activity : Option Bool := none
  abs_asset_class : Option RStr := none
  depositor_cik : Option RStr := none
  sponsor_cik : Option RStr := none
  confirming_copy : Option Submission := none
  category : Option RStr := none
  registered_entity : Option Bool := none
  depositor : Option Filer := none
  securitizer : Option Filer := none
  references_429 : Option RStr := none

/-- The initial state of the legacy `Submission::from_parts`. -/
def Submission.initState : Submission.State := {}

/-- The value-tag arms of the legacy `Submission::from_parts` scan loop:
every field, optional ones included, is assign-once with an
`assert_eq!(None, ..)` duplicate check. -/
def Submission.stepValue (st : Submission.State) (tag : VTag) (value : RStr) :
    Except PError Submission.State :=
  match tag with
  | .AccessionNumber =>
    if st.accession_number.isSome then .error (.panicked "assertion failed")
    else .ok {st with accession_number := some value}
  | .Type =>
    if st.filing_type.isSome then .error (.panicked "assertion failed")
    else .ok {st with filing_type := some value}
  | .PublicDocumentCount =>
    if st.public_document_count ≠ 0 then .error (.panicked "assertion failed")
    else
      match rustParseNat (2 ^ 64) value with
      | some n => .ok {st with public_document_count := n}
      | none => .error (.panicked "unwrap on Err")
  | .Items => .ok {st with items := st.items ++ [value]}
  | .FilingDate =>
    if st.filing_date.isSome then .error (.panicked "assertion failed")
    else do
      let d ← parse_date value
      .ok {st with filing_date := some d}
  | .DateOfFilingDateChange =>
    if st.date_of_filing_date_change.isSome then .error (.panicked "assertion failed")
    else do
      let d ← parse_date value
      .ok {st with date_of_filing_date_change := some d}
  | .EffectivenessDate =>
    if st.effectiveness_date.isSome then .error (.panicked "assertion failed")
    else do
      let d ← parse_date value
      .ok {st with effectiveness_date := some d}
  | .Period =>
    if st.period.isSome then .error (.panicked "assertion failed")
    else do
      let d ← parse_date value
      .ok {st with period := some d}
  | .GroupMembers => .ok {st with group_members := st.group_members ++ [value]}
  | .Reference462B =>
    if st.reference_462b.isSome then .error (.panicked "assertion failed")
    else .ok {st with reference_462b := some value}
  | .IsFilerANewRegistrant =>
    if st.is_filer_a_new_registrant.isSome then .error (.panicked "assertion failed")
    else do
      let b ← parse_bool value
      .ok {st with is_filer_a_new_registrant := some b}
  | .IsFilerAWellKnownSeasonedIssuer =>
    if st.is_filer_a_well_known_seasoned_issuer.isSome then
      .error (.panicked "assertion failed")
    else do
      let b ← parse_bool value
      .ok {st with is_filer_a_well_known_seasoned_issuer := some b}
  | .FiledPursuantToGeneralInstructionA2 =>
    if st.filed_pursuant_to_general_instruction_a2.isSome then
      .error (.panicked "assertion failed")
    else do
      let b ← parse_bool value
      .ok {st with filed_pursuant_to_general_instruction_a2 := some b}
  | .IsFund24F2Eligible =>
    if st.is_fund_24f2_eligible.isSome then .error (.panicked "assertion failed")
    else do
      let b ← parse_bool value
      .ok {st with is_fund_24f2_eligible := some b}
  | .ActionDate =>
    if st.action_date.isSome then .error (.panicked "assertion failed")
    else do
      let d ← parse_date value
      .ok {st with action_date := some d}
  | .ReceivedDate =>
    if st.received_date.isSome then .error (.panicked "assertion failed")
    else do
      let d ← parse_date value
      .ok {st with received_date := some d}
  | .MaIIndividual =>
    if st.ma_i_individual.isSome then .error (.panicked "assertion failed")
    else .ok {st with ma_i_individual := some value}
  | .AbsRule =>
    if st.abs_rule.isSome then .error (.panicked "assertion failed")
    else .ok {st with abs_rule := some value}
  | .PeriodStart =>
    if st.period_start.isSome then .error (.panicked "assertion failed")
    else do
      let d ← parse_date value
      .ok {st with period_start := some d}
  | .NoQuarterlyActivity =>
    if st.no_quarterly_activity.isSome then .error (.panicked "assertion failed")
    else do
      let b ← parse_bool value
      .ok {st with no_quarterly_activity := some b}
  | .NoAnnualActivity =>
    if st.no_annual_activity.isSome then .error (.panicked "assertion failed")
    else do
      let b ← parse_bool value
      .ok {st with no_annual_activity := some b}
  | .AbsAssetClass =>
    if st.abs_asset_class.isSome then .error (.panicked "assertion failed")
    else .ok {st with abs_asset_class := some value}
  | .DepositorCik =>
    if st.depositor_cik.isSome then .error (.panicked "assertion failed")
    else .ok {st with depositor_cik := some value}
  | .SponsorCik =>
    if st.sponsor_cik.isSome then .error (.panicked "assertion failed")
    else .ok {st with sponsor_cik := some value}
  | .Category =>
    if st.category.isSome then .error (.panicked "assertion failed")
    else .ok {st with category := some value}
  | .RegisteredEntity =>
    if st.registered_entity.isSome then .error (.panicked "assertion failed")
    else do
      let b ← parse_bool value
      .ok {st with registered_entity := some b}
  | .References429 =>
    if st.references_429.isSome then .error (.panicked "assertion failed")
    else .ok {st with references_429 := some value}
  | _ => .error (.panicked "Unexpected part")

/-- Finalization of the legacy `Submission::from_parts`: the late invariant
check `assert_eq!(public_document_count, documents.len())` runs after the
scan loop, then the record is built (no field unwraps — every scalar stays
optional). -/
def Submission.finalize (st : Submission.State) : Except PError Submission :=
  if st.public_document_count = st.documents.length then
    .ok (.mk ⟨st.accession_number, st.filing_type, st.items, st.filing_date,
      st.date_of_filing_date_change, st.effectiveness_date, st.period,
      st.filers, st.documents, st.series_and_classes_contracts_data,
      st.reporting_owners, st.issuer, st.group_members, st.subject_company,
      st.filed_by, st.reference_462b, st.is_filer_a_new_registrant,
      st.is_filer_a_well_known_seasoned_issuer,
      st.filed_pursuant_to_general_instruction_a2, st.is_fund_24f2_eligible,
      st.action_date, st.received_date, st.ma_i_individual, st.abs_rule,
      st.period_start, st.no_quarterly_activity, st.no_annual_activity,
      st.abs_asset_class, st.depositor_cik, st.sponsor_cik,
      st.confirming_copy, st.category, st.registered_entity, st.depositor,
      st.securitizer, st.references_429⟩)
  else .error (.panicked "assertion failed")

/-- Fuelled embedding of the legacy `Submission::from_parts` scan loop. A
`PAPER` container re-invokes the decoder on its own children and returns
that result outright; a `CONFIRMING-COPY` container (assert-once) re-invokes
the decoder on its children and attaches the nested submission to the
`confirming_copy` field, changing nothing else; fuel only bounds the
recursion depth. -/
def Submission.goF : Nat → Submission.State → List Tree.DocumentTree →
    Except PError Submission
  | 0, _, _ => .error .outOfFuel
  | _ + 1, st, [] => Submission.finalize st
  | n + 1, st, part :: rest =>
    match part with
    | .ValueNode tag value => do
      let st' ← Submission.stepValue st tag value
      Submission.goF n st' rest
    | .ContainerNode tag sub =>
      match tag with
      | .Paper => Submission.goF n Submission.initState sub
      | .Filer => do
        let f ← Filer.from_parts sub
        Submission.goF n {st with filers := st.filers ++ [f]} rest
      | .Document => do
        let d ← Document.from_parts sub
        Submission.goF n {st with documents := st.documents ++ [d]} rest
      | .SeriesAndClassesContractsData =>
        if st.series_and_classes_contracts_data.isSome then
          .error (.panicked "assertion failed")
        else do
          let s ← SeriesAndClassesContractsData.from_parts sub
          Submission.goF n
            {st with series_and_classes_contracts_data := some s} rest
      | .ReportingOwner => do
        let f ← Filer.from_parts sub
        Submission.goF n {st with reporting_owners := st.reporting_owners ++ [f]} rest
      | .Issuer =>
        if st.issuer.isSome then .error (.panicked "assertion failed")
        else do
          let f ← Filer.from_parts sub
          Submission.goF n {st with issuer := some f} rest
      | .SubjectCompany =>
        if st.subject_company.isSome then .error (.panicked "assertion failed")
        else do
          let f ← Filer.from_parts sub
          Submission.goF n {st with subject_company := some f} rest
      | .FiledBy =>
        if st.filed_by.isSome then .error (.panicked "assertion failed")
        else do
          let f ← Filer.from_parts sub
          Submission.goF n {st with filed_by := some f} rest
      | .ConfirmingCopy =>
        if st.confirming_copy.isSome then .error (.panicked "assertion failed")
        else do
          let s ← Submission.goF n Submission.initState sub
          Submission.goF n {st with confirming_copy := some s} rest
      | .Depositor =>
        if st.depositor.isSome then .error (.panicked "assertion failed")
        else do
          let f ← Filer.from_parts sub
          Submission.goF n {st with depositor := some f} rest
      | .Securitizer =>
        if st.securitizer.isSome then .error (.panicked "assertion failed")
        else do
          let f ← Filer.from_parts sub
          Submission.goF n {st with securitizer := some f} rest
      | _ => .error (.panicked "unimplemented")
    | _ => .error (.panicked "Unexpected part")

/-- Embedding of the legacy `Submission::from_parts` with enough fuel for its
input (every recursive call moves to a structurally smaller child list, so
the structural fuel measure below can never run out). -/
def Submission.from_parts (parts : List Tree.DocumentTree) :
    Except PError Submission :=
  Submission.goF (Tree.forestFuel parts) Submission.initState parts

end Legacy

/-- C2: in the legacy submission decoder, a `CONFIRMING-COPY` container child
triggers a recursive invocation of the decoder (from the initial state) on
that container's own children; the resulting nested submission is attached to
the record's optional recursive `confirming_copy` field and nothing else in
the state changes, the remaining children being processed as before; a second
confirming-copy container is an assert failure. -/
theorem legacy_confirming_copy_recursive :
    (∀ (n : Nat) (st : Legacy.Submission.State) (sub rest : List Tree.DocumentTree),
      st.confirming_copy = none →
      Legacy.Submission.goF (n + 1) st
          (.ContainerNode .ConfirmingCopy sub :: rest) =
        (do
          let s ← Legacy.Submission.goF n Legacy.Submission.initState sub
          Legacy.Submission.goF n {st with confirming_copy := some s} rest)) ∧
    (∀ (n : Nat) (st : Legacy.Submission.State) (sub rest : List Tree.DocumentTree),
      st.confirming_copy.isSome = true →
      Legacy.Submission.goF (n + 1) st
          (.ContainerNode .ConfirmingCopy sub :: rest) =
        .error (.panicked "assertion failed")) := by
  constructor
  · intro n st sub rest h
    simp [Legacy.Submission.goF, h]
  · intro n st sub rest h
    simp [Legacy.Submission.goF, h]

/-- Witness for C2 at a concrete empty confirming-copy container. -/
theorem legacy_confirming_copy_recursive_witness :
    Legacy.Submission.goF 2 Legacy.Submission.initState
        [.ContainerNode .ConfirmingCopy []] =
      (do
        let s ← Legacy.Submission.goF 1 Legacy.Submission.initState []
        Legacy.Submission.goF 1
          {Legacy.Submission.initState with confirming_copy := some s} []) :=
  legacy_confirming_copy_recursive.1 1 Legacy.Submission.initState [] [] rfl

/-- C1: the newer submission decoder parses `PUBLIC-DOCUMENT-COUNT` but never
compares it to the number of parsed documents — a declared count of `2` with
a single `DOCUMENT` child yields a successful record with one document; the
legacy decoder performs the late check and rejects the analogous input,
accepting it once the declared count matches. -/
theorem public_document_count_check_eval :
    (Submission.from_parts
      [.ValueNode .AccessionNumber (strOf "0000000000-00-000000"),
       .ValueNode .Type (strOf "10-K"),
       .ValueNode .FilingDate (strOf "19991231"),
       .ValueNode .PublicDocumentCount (strOf "2"),
       .ContainerNode .Document
         [.ValueNode .Type (strOf "10-K"), .ValueNode .Sequence (strOf "1")]]).map
      (fun s => s.documents.length) = .ok 1 ∧
    Legacy.Submission.from_parts
      [.ValueNode .PublicDocumentCount (strOf "2"),
       .ContainerNode .Document
         [.ValueNode .Type (strOf "10-K"), .ValueNode .Sequence (strOf "1"),
          .ValueNode .Filename (strOf "a.txt"), .TextNode (strOf "hi")]] =
      .error (.panicked "assertion failed") ∧
    (Legacy.Submission.from_parts
      [.ValueNode .PublicDocumentCount (strOf "1"),
       .ContainerNode .Document
         [.ValueNode .Type (strOf "10-K"), .ValueNode .Sequence (strOf "1"),
          .ValueNode .Filename (strOf "a.txt"), .TextNode (strOf "hi")]]).isOk =
      true :=
  ⟨rfl, rfl, rfl⟩
